import Mathlib

/-!
Verification development for the stable-pay settlement backend.

The TypeScript controllers and utilities are shallowly embedded as pure Lean
functions.  Effectful collaborators (the chain RPC node, the payment
processor, signature recovery, JS number parsing) are passed in as explicit
oracle values or functions; database tables are explicit lists of rows; each
handler returns its HTTP response together with the final table contents and
counters for the externally visible side effects (chain lookups, transfer
broadcasts, payout creations, dispatched events).  JS numbers are modelled
as rationals, with `Option ℚ` standing for a number that may be NaN (`none`).
-/

namespace StablePay

/- ===== JS string and number primitives ===== -/

/-- JS `String.prototype.toLowerCase` restricted to per-character lowering,
which agrees with it on ASCII data. -/
def jsToLower (s : String) : String := String.mk (s.data.map Char.toLower)

/-- JS truthiness of a string: only the empty string is falsy. -/
def jsTruthyS (s : String) : Bool := !(s == "")

/-- JS truthiness of a possibly-undefined string. -/
def jsTruthyO : Option String → Bool
  | some s => jsTruthyS s
  | none => false

/-- JS `a || b` for strings (empty string falls through to `b`). -/
def jsOrS (a b : String) : String := if a == "" then b else a

/-- JS `a || b` where `a` may be undefined. -/
def jsOrOS (a : Option String) (b : String) : String :=
  match a with
  | some s => jsOrS s b
  | none => b

/-- JS `x <= 0` where `x` may be NaN; all comparisons with NaN are false. -/
def jsLe0 : Option ℚ → Bool
  | some v => decide (v ≤ 0)
  | none => false

/-- JS `x > t` where `x` may be NaN. -/
def jsGt : Option ℚ → ℚ → Bool
  | some v, t => decide (t < v)
  | none, _ => false

/-- JS `a < x` where `x` may be NaN. -/
def jsLt (a : ℚ) : Option ℚ → Bool
  | some v => decide (a < v)
  | none => false

/-- JS subtraction, propagating NaN. -/
def jsSub : Option ℚ → Option ℚ → Option ℚ
  | some a, some b => some (a - b)
  | _, _ => none

/-- JS `Math.abs`, propagating NaN. -/
def jsAbs : Option ℚ → Option ℚ
  | some a => some |a|
  | none => none

/-- JS multiplication, propagating NaN. -/
def jsMul : Option ℚ → Option ℚ → Option ℚ
  | some a, some b => some (a * b)
  | _, _ => none

/-- Value-level model of JS `Number.prototype.toFixed(6)`: round to six
decimal places (half away from zero on the nonnegative inputs used here). -/
def toFixed6 (q : ℚ) : ℚ := ((⌊q * 1000000 + 1 / 2⌋ : ℤ) : ℚ) / 1000000

/-- `toFixed6` lifted over a possibly-NaN number. -/
def jsToFixed6 : Option ℚ → Option ℚ
  | some q => some (toFixed6 q)
  | none => none

/-- Substring test on character lists (used for JS `String.prototype.includes`). -/
def containsSub (hay needle : List Char) : Bool :=
  (List.range (hay.length + 1)).any fun i => needle.isPrefixOf (hay.drop i)

/-- JS `s.includes(needle)`. -/
def includesS (hay needle : String) : Bool := containsSub hay.data needle.data

/-- JS `s?.includes(needle)` (optional chaining: undefined is falsy). -/
def includesStr (hay : Option String) (needle : String) : Bool :=
  match hay with
  | some h => includesS h needle
  | none => false

/- ===== Minimal regex model =====

`validateCashoutMessage` builds three `RegExp`s by string interpolation and
runs `.test` on the lowercased message.  The generated pattern sources only
ever contain literal characters, the escape `\n`, the wildcard `.` and the
quantified wildcard `.+`, so the embedding parses pattern sources into this
token language and implements JS `RegExp.prototype.test` semantics for it:
unanchored search, `i` flag (case-insensitive literals), and `.` matching any
character except a line terminator. -/

inductive RTok where
  | lit (c : Char)
  | anyChar
  | anyPlus
deriving DecidableEq

/-- Parse a JS regex source string into tokens.  Handles exactly the
constructs occurring in the generated pattern sources: the two-character
escape `\n`, `.+`, bare `.`, and literal characters. -/
def parseRegex : List Char → List RTok
  | [] => []
  | [c] => if c = '.' then [RTok.anyChar] else [RTok.lit c]
  | c :: d :: rest =>
    if c = '\\' && d = 'n' then RTok.lit '\n' :: parseRegex rest
    else if c = '.' && d = '+' then RTok.anyPlus :: parseRegex rest
    else if c = '.' then RTok.anyChar :: parseRegex (d :: rest)
    else RTok.lit c :: parseRegex (d :: rest)

/-- Can the JS wildcard `.` (no `s` flag) match this character? -/
def okAny (c : Char) : Bool := !(c == '\n') && !(c == '\r')

/-- Case-insensitive character comparison (the `i` flag). -/
def charCI (p d : Char) : Bool := p.toLower == d.toLower

/-- Match a token list against an input anchored at the current position; the
pattern need not consume the whole input (JS `test` semantics). -/
def matchTokens : List RTok → List Char → Bool
  | [], _ => true
  | _ :: _, [] => false
  | RTok.lit p :: ts, d :: ds => charCI p d && matchTokens ts ds
  | RTok.anyChar :: ts, d :: ds => okAny d && matchTokens ts ds
  | RTok.anyPlus :: ts, d :: ds =>
      okAny d && (matchTokens ts ds || matchTokens (RTok.anyPlus :: ts) ds)

/-- JS `RegExp.prototype.test`: unanchored search over all start positions. -/
def regexTest (ts : List RTok) (s : List Char) : Bool :=
  (List.range (s.length + 1)).any fun i => matchTokens ts (s.drop i)

/- ===== utils/signature.ts ===== -/

/-- Source: `backend/src/utils/signature.ts` `verifySignature`.
`ethers.verifyMessage` is the oracle `recover` (`none` when recovery throws,
which the source catches and turns into `false`). -/
def verifySignature (recover : String → String → Option String)
    (message signature expectedAddress : String) : Bool :=
  match recover message signature with
  | some recoveredAddress => jsToLower recoveredAddress == jsToLower expectedAddress
  | none => false

/-- Source: `backend/src/utils/signature.ts` `createCashoutMessage`. -/
def createCashoutMessage (address amount timestamp : String) : String :=
  "I request cashout " ++ amount ++ " USDT at " ++ timestamp ++ "\n\nAddress: " ++ address

/-- Source: `backend/src/utils/signature.ts` `validateCashoutMessage`.  The
three pattern sources are written exactly as the interpolated template
literals produce them (`\\n` is the two-character sequence backslash-n in the
regex source, which the regex engine reads as a newline). -/
def validateCashoutMessage (message address amount : String) : Bool :=
  let normalizedAddress := jsToLower address
  let patterns : List String :=
    [ "I request cashout " ++ amount ++ " USDT at .+\\n\\nAddress: " ++ normalizedAddress
    , "I request cashout " ++ amount ++ " USDT at .+\\nAddress: " ++ normalizedAddress
    , "I request cashout " ++ amount ++ " USDT at .+ Address: " ++ normalizedAddress ]
  patterns.any fun p => regexTest (parseRegex p.data) (jsToLower message).data

/- ===== Data model (models/Payment.ts, models/Cashout.ts, models/Payroll.ts) =====

Timestamp columns (`created_at`, `updated_at`, `completed_at`, `timestamp`)
are omitted: no claim observes them.  Numeric columns persisted as decimal
strings are carried at value level as `ℚ` (`Option ℚ` when the stored string
may be the rendering of NaN or the column is nullable). -/

inductive PaymentStatus where
  | pending | processing | completed | failed | canceled
deriving DecidableEq

structure Payment where
  id : Nat
  payment_intent_id : String
  wallet_address : String
  amount_fiat : Option ℚ
  fiat_currency : String
  amount_usdt : Option ℚ
  exchange_rate : ℚ
  tx_hash : Option String
  block_number : Option Nat
  status : PaymentStatus
  error_message : Option String
deriving DecidableEq

inductive CashoutStatus where
  | pending_transfer | pending_payout | in_transit | paid | failed | canceled
deriving DecidableEq

structure Cashout where
  id : Nat
  employee_address : String
  amount_usdt : String
  fiat_currency : String
  fiat_amount : Option ℚ
  exchange_rate : Option ℚ
  tx_hash_onchain : String
  payout_id_stripe : Option String
  stripe_bank_account_id : Option String
  status : CashoutStatus
  error_message : Option String
deriving DecidableEq

inductive PayrollStatus where
  | pending | completed | failed
deriving DecidableEq

structure Payroll where
  id : Nat
  payroll_id : String
  employer_address : String
  employee_address : String
  amount_usdt : String
  tx_hash : Option String
  block_number : Option Nat
  status : PayrollStatus
deriving DecidableEq

/-- An `ethers` transaction response (only the hash is observed). -/
structure TxResp where
  hash : String
deriving DecidableEq

/-- An `ethers` transaction receipt as observed by the webhook handler. -/
structure Receipt where
  hash : String
  blockNumber : Nat
  status : Nat
deriving DecidableEq

/-- Result of `verifyTransferTransaction` (field `from` is a Lean keyword,
hence `fromAddr`/`toAddr`). -/
structure TransferInfo where
  fromAddr : String
  toAddr : String
  amount : String
deriving DecidableEq

/-- One decoded transfer from `verifyPayrollTransaction`. -/
structure PTransfer where
  fromAddr : String
  toAddr : String
  amount : String
deriving DecidableEq

/-- Result of `verifyPayrollTransaction`. -/
structure PayrollVerification where
  transfers : List PTransfer
  blockNumber : Nat
deriving DecidableEq

/-- A thrown JS error as inspected by the retry classifier: possibly-absent
`message` and `code` properties. -/
structure JsError where
  message : Option String
  code : Option String
deriving DecidableEq

/- ===== Ledger stores ===== -/

/-- Modelled from the spec: `paymentService.getPaymentByPaymentIntentId` is
imported by the controllers but `paymentService.ts` is not in the source
snapshot.  Section 6 of the spec requires of the ledger store point lookups
by natural external key; this is the lookup of the Payment row by its
external payment reference. -/
def getPaymentByPaymentIntentId (payments : List Payment) (pid : String) : Option Payment :=
  payments.find? fun p => p.payment_intent_id == pid

/-- Modelled from the spec: `paymentService.updatePayment` is imported by the
controllers but `paymentService.ts` is not in the source snapshot.  Section 6
requires conditional update by primary key updating only the supplied
fields; the supplied fields are represented as a row transformer applied to
the row with the given id. -/
def updatePayment (payments : List Payment) (id : Nat) (f : Payment → Payment) : List Payment :=
  payments.map fun p => if p.id == id then f p else p

/-- Modelled from the spec: `paymentService.createPayment` is imported by the
controllers but `paymentService.ts` is not in the source snapshot.  Section 6
requires insert-returning; the insert appends the new row. -/
def createPayment (payments : List Payment) (row : Payment) : List Payment :=
  payments ++ [row]

/-- Source: `backend/src/services/cashoutService.ts` `getCashoutByTxHash`
(`SELECT * FROM cashouts WHERE tx_hash_onchain = ? LIMIT 1`). -/
def getCashoutByTxHash (cashouts : List Cashout) (txHash : String) : Option Cashout :=
  cashouts.find? fun c => c.tx_hash_onchain == txHash

/-- Source: `backend/src/services/cashoutService.ts` `getCashoutByPayoutId`. -/
def getCashoutByPayoutId (cashouts : List Cashout) (payoutId : String) : Option Cashout :=
  cashouts.find? fun c => c.payout_id_stripe == some payoutId

/-- Source: `backend/src/services/cashoutService.ts` `updateCashout`: update
by primary key of the supplied fields only, represented as a row
transformer. -/
def updateCashout (cashouts : List Cashout) (id : Nat) (f : Cashout → Cashout) : List Cashout :=
  cashouts.map fun c => if c.id == id then f c else c

/-- Source: `backend/src/services/cashoutService.ts` `createCashout`: insert
the row, lowercasing `employee_address`. -/
def createCashout (cashouts : List Cashout) (row : Cashout) : List Cashout :=
  cashouts ++ [{ row with employee_address := jsToLower row.employee_address }]

/-- Source: `backend/src/services/payrollService.ts` `getPayrollsByPayrollId`
(`SELECT * FROM payrolls WHERE payroll_id = ?`; the ordering clause is
immaterial to the claims). -/
def getPayrollsByPayrollId (payrolls : List Payroll) (pid : String) : List Payroll :=
  payrolls.filter fun r => r.payroll_id == pid

/-- Source: `backend/src/services/payrollService.ts` `updatePayroll`
(`UPDATE payrolls SET ... WHERE payroll_id = ?`): updates every row of the
batch sharing the given `payroll_id`. -/
def updatePayroll (payrolls : List Payroll) (pid : String) (f : Payroll → Payroll) : List Payroll :=
  payrolls.map fun r => if r.payroll_id == pid then f r else r

/- ===== utils/blockchain.ts : transferUSDTFromOfframp ===== -/

/-- Source: `backend/src/utils/blockchain.ts` lines 199-209, the retryable
classification of a caught error. -/
def isRetryableError (e : JsError) : Bool :=
  includesStr e.message "502" ||
  includesStr e.message "503" ||
  includesStr e.message "Bad Gateway" ||
  includesStr e.message "Service Unavailable" ||
  includesStr e.message "timeout" ||
  includesStr e.message "ECONNRESET" ||
  includesStr e.message "ETIMEDOUT" ||
  e.code == some "SERVER_ERROR" ||
  e.code == some "TIMEOUT"

/-- JS template interpolation of `error.message` (undefined prints as the
string `undefined`). -/
def messageOf (e : JsError) : String := e.message.getD "undefined"

deriving instance DecidableEq for Except

/-- Observable outcome of one `transferUSDTFromOfframp` call: the final
result, how many attempts (iterations of the try body, each of which
broadcasts at most one transfer) were made, and the backoff waits in seconds
taken between attempts. -/
structure TransferRun where
  result : Except String TxResp
  attempts : Nat
  waits : List Nat
deriving DecidableEq

/-- The `for (attempt = 1; attempt <= maxRetries; attempt++)` loop of
`transferUSDTFromOfframp`.  `outcome n` is the oracle for the n-th iteration
of the try body (balance fetch, balance check, transfer broadcast): `.ok` is
a successful broadcast, `.error` any throw out of the body.  `fuel` is the
number of loop iterations still permitted (`maxRetries - attempt + 1`), and
`lastError` the `lastError` variable. -/
def transferLoop (outcome : Nat → Except JsError TxResp) (maxRetries : Nat) :
    Nat → Nat → Option JsError → TransferRun
  | 0, _, lastError =>
      { result := Except.error ("Failed to transfer USDT from offramp wallet after " ++
          toString maxRetries ++ " attempts: " ++
          (match lastError with
           | some e => messageOf e
           | none => "Unknown error")),
        attempts := 0, waits := [] }
  | fuel + 1, attempt, _ =>
      match outcome attempt with
      | Except.ok tx => { result := Except.ok tx, attempts := 1, waits := [] }
      | Except.error e =>
          if isRetryableError e && decide (attempt < maxRetries) then
            let rest := transferLoop outcome maxRetries fuel (attempt + 1) (some e)
            { result := rest.result, attempts := rest.attempts + 1,
              waits := attempt * 2 :: rest.waits }
          else
            { result := Except.error ("Failed to transfer USDT from offramp wallet: " ++
                messageOf e),
              attempts := 1, waits := [] }

/-- Source: `backend/src/utils/blockchain.ts` `transferUSDTFromOfframp`.
The wallet-configured guard is outside the loop and not modelled; the loop
starts at attempt 1 with `maxRetries` iterations available. -/
def transferUSDTFromOfframp (outcome : Nat → Except JsError TxResp)
    (maxRetries : Nat) : TransferRun :=
  transferLoop outcome maxRetries maxRetries 1 none

/- ===== paymentController.createPaymentIntentHandler (on-ramp initiation) ===== -/

structure PaymentIntentReq where
  amount : String
  currency : String
  walletAddress : String

/-- Oracles for the effectful collaborators of `createPaymentIntentHandler`:
`isAddr` is `ethers.isAddress`, `parseNum` is JS `parseFloat` (`none` = NaN),
`rate` the outcome of `getExchangeRate('usdt', currency)`, `offrampBalance`
the outcome of `getOfframpBalance` (value of the returned decimal string),
`intent` the outcome of `createPaymentIntent` (the new intent id), and
`nextPaymentId` the primary key the insert will assign. -/
structure PaymentEnv where
  isAddr : String → Bool
  parseNum : String → Option ℚ
  rate : Except String ℚ
  offrampBalance : Except String ℚ
  intent : Except String String
  nextPaymentId : Nat

inductive PaymentIntentResp where
  | invalidWallet
  | invalidAmount
  | invalidCurrency
  | overCap (maxAmount : String) (requested : Option ℚ)
  | insufficientBalance (available : ℚ) (required : Option ℚ)
  | intentCreated (paymentIntentId : String) (amountUSDT : Option ℚ) (exchangeRate : ℚ)
  | serverError (msg : String)
deriving DecidableEq

structure PaymentIntentOut where
  httpStatus : Nat
  body : PaymentIntentResp
  payments : List Payment
  stripeCalls : Nat
deriving DecidableEq

/-- Exchange rate used by the on-ramp: invert the USDT-to-fiat quote, or fall
back to 1:1 when the lookup throws (source lines 28-37 of the payment
controller).  ℚ division by zero yields 0 where JS would yield Infinity; no
claim exercises a zero quote. -/
def exchangeRateOf (env : PaymentEnv) : ℚ :=
  match env.rate with
  | Except.ok usdtToFiatRate => 1 / usdtToFiatRate
  | Except.error _ => 1

/-- `amountUSDT = parseFloat(amount) * exchangeRate` (NaN-propagating). -/
def amountUSDTof (env : PaymentEnv) (req : PaymentIntentReq) : Option ℚ :=
  jsMul (env.parseNum req.amount) (some (exchangeRateOf env))

/-- The offramp-balance guard (source lines 50-63): a thrown balance lookup
is logged and ignored; a fetched balance below the requested token amount
rejects. -/
def offrampBalanceAllows (env : PaymentEnv) (amountUSDT : Option ℚ) : Bool :=
  match env.offrampBalance with
  | Except.ok bal => !(jsLt bal amountUSDT)
  | Except.error _ => true

/-- Source: payment controller `createPaymentIntentHandler` (POST
/api/payment/create-intent). -/
def createPaymentIntentHandler (env : PaymentEnv) (req : PaymentIntentReq)
    (payments : List Payment) : PaymentIntentOut :=
  if !(jsTruthyS req.walletAddress) || !(env.isAddr req.walletAddress) then
    ⟨400, PaymentIntentResp.invalidWallet, payments, 0⟩
  else if !(jsTruthyS req.amount) || jsLe0 (env.parseNum req.amount) then
    ⟨400, PaymentIntentResp.invalidAmount, payments, 0⟩
  else if !(jsTruthyS req.currency) || !(["usd", "eur"].contains (jsToLower req.currency)) then
    ⟨400, PaymentIntentResp.invalidCurrency, payments, 0⟩
  else
    let exchangeRate := exchangeRateOf env
    let amountUSDT := amountUSDTof env req
    if jsGt amountUSDT 5 then
      ⟨400, PaymentIntentResp.overCap "5" amountUSDT, payments, 0⟩
    else if !(offrampBalanceAllows env amountUSDT) then
      match env.offrampBalance with
      | Except.ok bal => ⟨400, PaymentIntentResp.insufficientBalance bal amountUSDT, payments, 0⟩
      | Except.error m => ⟨500, PaymentIntentResp.serverError m, payments, 0⟩
    else
      match env.intent with
      | Except.error m => ⟨500, PaymentIntentResp.serverError m, payments, 1⟩
      | Except.ok paymentIntentId =>
          let row : Payment :=
            { id := env.nextPaymentId
              payment_intent_id := paymentIntentId
              wallet_address := req.walletAddress
              amount_fiat := env.parseNum req.amount
              fiat_currency := jsToLower req.currency
              amount_usdt := jsToFixed6 amountUSDT
              exchange_rate := exchangeRate
              tx_hash := none
              block_number := none
              status := PaymentStatus.pending
              error_message := none }
          ⟨200, PaymentIntentResp.intentCreated paymentIntentId (jsToFixed6 amountUSDT) exchangeRate,
            createPayment payments row, 1⟩

/- ===== cashoutController.requestCashout (off-ramp initiation) ===== -/

structure CashoutRequest where
  amount : String
  currency : String
  bankAccountId : String
  connectedAccountId : Option String
  signature : String
  message : String
  txHash : String
  employeeAddress : String
  address : String

/-- Oracles for `requestCashout`: `recover` is `ethers.verifyMessage`,
`employeeLookup` the outcome of `getEmployeeByAddress` (its value is unused
by the handler, only a throw matters), `offrampAddress` the outcome of
`getOfframpAddress`, `verifyTx` the outcome of `verifyTransferTransaction`
(already carrying the wrapped error message the source throws), `rate` the
outcome of `getExchangeRate`, `transferCA` the outcome of
`transferToConnectedAccount`, `payout` the outcome of `createPayout`. -/
structure CashoutEnv where
  isAddr : String → Bool
  recover : String → String → Option String
  parseNum : String → Option ℚ
  employeeLookup : Except String Unit
  offrampAddress : Except String String
  verifyTx : String → Except String TransferInfo
  rate : Except String ℚ
  transferCA : Except String Unit
  payout : Except String String
  nextCashoutId : Nat

inductive CashoutResp where
  | invalidAddressResp
  | invalidAmountResp
  | invalidCurrencyResp
  | missingBankResp
  | missingSignatureResp
  | missingTxHashResp
  | invalidSignatureResp
  | invalidMessageResp (message expectedPattern : String)
  | rpcUnavailable (details : String)
  | verifyFailed (details : String)
  | senderMismatch
  | recipientMismatch
  | amountMismatchResp (requested transferred : Option ℚ)
  | existingCashout (cashoutId : Nat) (status : CashoutStatus) (payoutId : Option String)
      (fiatAmount : Option ℚ) (currency : String)
  | cashoutCreated (cashoutId : Nat) (payoutId : String) (fiatAmount : Option ℚ) (currency : String)
  | serverError (msg : String)
deriving DecidableEq

structure CashoutOut where
  httpStatus : Nat
  body : CashoutResp
  cashouts : List Cashout
  chainCalls : Nat
  payoutCalls : Nat
deriving DecidableEq

/-- Source: cashout controller lines 124-211, the tail of `requestCashout`
after the duplicate check found no existing row: fetch the exchange rate
(falling back to 1:1 on a throw), insert the Cashout row `pending_transfer`,
then create the Stripe payout (directly, or transfer-then-payout when a
connected account is given), updating the row to `pending_payout` on
success and to `failed` (rethrowing, hence HTTP 500) on failure.
`chainCalls` is 1 and `payoutCalls` counts `createPayout` invocations. -/
def createAndPayout (env : CashoutEnv) (req : CashoutRequest) (employeeAddress : String)
    (cashouts : List Cashout) : CashoutOut :=
  let exchangeRate : ℚ :=
    match env.rate with
    | Except.ok r => r
    | Except.error _ => 1
  let fiatAmount := jsMul (env.parseNum req.amount) (some exchangeRate)
  let row : Cashout :=
    { id := env.nextCashoutId
      employee_address := employeeAddress
      amount_usdt := req.amount
      fiat_currency := jsToLower req.currency
      fiat_amount := fiatAmount
      exchange_rate := some exchangeRate
      tx_hash_onchain := req.txHash
      payout_id_stripe := none
      stripe_bank_account_id := some req.bankAccountId
      status := CashoutStatus.pending_transfer
      error_message := none }
  let st1 := createCashout cashouts row
  let runPayout : Nat → CashoutOut := fun payoutCallsBefore =>
    match env.payout with
    | Except.ok payoutId =>
        let st2 := updateCashout st1 row.id fun c =>
          { c with payout_id_stripe := some payoutId, status := CashoutStatus.pending_payout }
        ⟨200, CashoutResp.cashoutCreated row.id payoutId fiatAmount (jsToLower req.currency),
          st2, 1, payoutCallsBefore + 1⟩
    | Except.error m =>
        let st2 := updateCashout st1 row.id fun c =>
          { c with status := CashoutStatus.failed,
                   error_message := some (jsOrS m "Failed to create Stripe payout") }
        ⟨500, CashoutResp.serverError m, st2, 1, payoutCallsBefore + 1⟩
  if jsTruthyO req.connectedAccountId then
    match env.transferCA with
    | Except.error m =>
        let st2 := updateCashout st1 row.id fun c =>
          { c with status := CashoutStatus.failed,
                   error_message := some (jsOrS m "Failed to create Stripe payout") }
        ⟨500, CashoutResp.serverError m, st2, 1, 0⟩
    | Except.ok _ => runPayout 0
  else
    runPayout 0

/-- Source: cashout controller `requestCashout` (POST /api/cashout/request).
Validation, signature recovery, message-format validation, employee lookup,
on-chain verification of the submitted hash, sender/recipient/amount checks,
duplicate-hash idempotency check, then row creation and payout. -/
def requestCashout (env : CashoutEnv) (req : CashoutRequest)
    (cashouts : List Cashout) : CashoutOut :=
  let employeeAddress := jsOrS req.employeeAddress req.address
  if !(jsTruthyS employeeAddress) || !(env.isAddr employeeAddress) then
    ⟨400, CashoutResp.invalidAddressResp, cashouts, 0, 0⟩
  else if !(jsTruthyS req.amount) || jsLe0 (env.parseNum req.amount) then
    ⟨400, CashoutResp.invalidAmountResp, cashouts, 0, 0⟩
  else if !(jsTruthyS req.currency) || !(["usd", "eur"].contains (jsToLower req.currency)) then
    ⟨400, CashoutResp.invalidCurrencyResp, cashouts, 0, 0⟩
  else if !(jsTruthyS req.bankAccountId) then
    ⟨400, CashoutResp.missingBankResp, cashouts, 0, 0⟩
  else if !(jsTruthyS req.signature) || !(jsTruthyS req.message) then
    ⟨400, CashoutResp.missingSignatureResp, cashouts, 0, 0⟩
  else if !(jsTruthyS req.txHash) then
    ⟨400, CashoutResp.missingTxHashResp, cashouts, 0, 0⟩
  else if !(verifySignature env.recover req.message req.signature employeeAddress) then
    ⟨401, CashoutResp.invalidSignatureResp, cashouts, 0, 0⟩
  else if !(validateCashoutMessage req.message employeeAddress req.amount) then
    ⟨400, CashoutResp.invalidMessageResp req.message
      ("I request cashout " ++ req.amount ++ " USDT at ...\\n\\nAddress: " ++ employeeAddress),
      cashouts, 0, 0⟩
  else
    match env.employeeLookup with
    | Except.error m => ⟨500, CashoutResp.serverError m, cashouts, 0, 0⟩
    | Except.ok _ =>
    match env.offrampAddress with
    | Except.error m => ⟨500, CashoutResp.serverError m, cashouts, 0, 0⟩
    | Except.ok offrampAddress =>
    match env.verifyTx req.txHash with
    | Except.error m =>
        if includesS m "403" || includesS m "Forbidden" then
          ⟨503, CashoutResp.rpcUnavailable m, cashouts, 1, 0⟩
        else
          ⟨400, CashoutResp.verifyFailed m, cashouts, 1, 0⟩
    | Except.ok transferInfo =>
        if !(jsToLower transferInfo.fromAddr == jsToLower employeeAddress) then
          ⟨400, CashoutResp.senderMismatch, cashouts, 1, 0⟩
        else if !(jsToLower transferInfo.toAddr == jsToLower offrampAddress) then
          ⟨400, CashoutResp.recipientMismatch, cashouts, 1, 0⟩
        else
          let transferAmount := env.parseNum transferInfo.amount
          let requestedAmount := env.parseNum req.amount
          if jsGt (jsAbs (jsSub transferAmount requestedAmount)) (1 / 100) then
            ⟨400, CashoutResp.amountMismatchResp requestedAmount transferAmount, cashouts, 1, 0⟩
          else
            match getCashoutByTxHash cashouts req.txHash with
            | some existingCashout =>
                ⟨200, CashoutResp.existingCashout existingCashout.id existingCashout.status
                  existingCashout.payout_id_stripe existingCashout.fiat_amount
                  existingCashout.fiat_currency, cashouts, 1, 0⟩
            | none => createAndPayout env req employeeAddress cashouts

/- ===== payrollController.executePayroll (batch settlement reconciliation) ===== -/

structure PayrollReq where
  payrollId : String
  txHash : String
  blockNumber : Option Nat

/-- Oracle for `executePayroll`: outcome of
`verifyPayrollTransaction(txHash, employerAddress)` and JS `parseFloat`. -/
structure PayrollEnv where
  verifyPayroll : Except String PayrollVerification
  parseNum : String → Option ℚ

inductive PayrollResp where
  | missingPayrollId
  | missingTxHash
  | notFound
  | amountMismatch (employee expected received : String)
  | notAllPaid (missing : List String)
  | verificationFailed (details : String)
  | executed (txHash : String) (blockNumber : Nat) (employeeCount transfersVerified : Nat)
  | serverError (msg : String)
deriving DecidableEq

structure PayrollOut where
  httpStatus : Nat
  body : PayrollResp
  payrolls : List Payroll
deriving DecidableEq

/-- JS `Map.prototype.set` on an insertion-ordered association list. -/
def mapSet (m : List (String × String)) (k v : String) : List (String × String) :=
  if m.any fun p => p.1 == k then
    m.map fun p => if p.1 == k then (k, v) else p
  else
    m ++ [(k, v)]

/-- JS `Set.prototype.add` on an insertion-ordered duplicate-free list. -/
def setAdd (s : List String) (x : String) : List String :=
  if s.contains x then s else s ++ [x]

/-- Source: payroll controller lines 152-156, the
`expectedEmployees` map built from the batch rows
(`employee_address.toLowerCase() → amount_usdt`). -/
def buildExpected (batch : List Payroll) : List (String × String) :=
  batch.foldl (fun m payroll => mapSet m (jsToLower payroll.employee_address) payroll.amount_usdt) []

/-- Source: payroll controller lines 158-175, the loop over verified
transfers: a transfer to an expected recipient must match the expected
amount within the 0.01 tolerance, failing the whole request otherwise; a
passing transfer marks the recipient received; transfers to unexpected
recipients are ignored.  An `.error` carries the response payload
`(transfer.to, expectedAmount, transfer.amount)`. -/
def scanTransfers (parseNum : String → Option ℚ) (expected : List (String × String)) :
    List PTransfer → List String → Except (String × String × String) (List String)
  | [], received => Except.ok received
  | transfer :: rest, received =>
      let toL := jsToLower transfer.toAddr
      match expected.lookup toL with
      | some expectedAmount =>
          if jsTruthyS expectedAmount then
            if jsGt (jsAbs (jsSub (parseNum transfer.amount) (parseNum expectedAmount)))
                (1 / 100) then
              Except.error (transfer.toAddr, expectedAmount, transfer.amount)
            else
              scanTransfers parseNum expected rest (setAdd received toL)
          else
            scanTransfers parseNum expected rest received
      | none => scanTransfers parseNum expected rest received

/-- Source: payroll controller `executePayroll` (POST /api/payroll/execute). -/
def executePayroll (env : PayrollEnv) (req : PayrollReq)
    (payrolls : List Payroll) : PayrollOut :=
  if !(jsTruthyS req.payrollId) then
    ⟨400, PayrollResp.missingPayrollId, payrolls⟩
  else if !(jsTruthyS req.txHash) then
    ⟨400, PayrollResp.missingTxHash, payrolls⟩
  else
    let batch := getPayrollsByPayrollId payrolls req.payrollId
    if batch.isEmpty then
      ⟨404, PayrollResp.notFound, payrolls⟩
    else
      match env.verifyPayroll with
      | Except.error m =>
          let failed := batch.foldl
            (fun acc payroll => updatePayroll acc payroll.payroll_id fun r =>
              { r with tx_hash := some req.txHash,
                       block_number := match req.blockNumber with
                         | some b => some b
                         | none => r.block_number,
                       status := PayrollStatus.failed })
            payrolls
          ⟨400, PayrollResp.verificationFailed m, failed⟩
      | Except.ok verification =>
          let expectedEmployees := buildExpected batch
          match scanTransfers env.parseNum expectedEmployees verification.transfers [] with
          | Except.error payload =>
              ⟨400, PayrollResp.amountMismatch payload.1 payload.2.1 payload.2.2, payrolls⟩
          | Except.ok receivedEmployees =>
              if !(receivedEmployees.length == expectedEmployees.length) then
                let missing := (expectedEmployees.map Prod.fst).filter
                  fun addr => !(receivedEmployees.contains addr)
                ⟨400, PayrollResp.notAllPaid missing, payrolls⟩
              else
                let updated := batch.foldl
                  (fun acc payroll => updatePayroll acc payroll.payroll_id fun r =>
                    { r with tx_hash := some req.txHash,
                             block_number := some verification.blockNumber,
                             status := PayrollStatus.completed })
                  payrolls
                ⟨200, PayrollResp.executed req.txHash verification.blockNumber
                  (getPayrollsByPayrollId updated req.payrollId).length
                  verification.transfers.length, updated⟩

/- ===== webhookController ===== -/

/-- A Stripe PaymentIntent object as observed by the webhook handlers. -/
structure StripePaymentIntent where
  id : String
  metadata_wallet_address : Option String
  last_payment_error_message : Option String
deriving DecidableEq

/-- The Stripe event types the webhook switch dispatches on. -/
inductive StripeEvent where
  | payoutPaid (payoutId : String)
  | payoutFailed (payoutId : String) (failureCode failureMessage : Option String)
  | payoutCanceled (payoutId : String)
  | paymentIntentSucceeded (pi : StripePaymentIntent)
  | paymentIntentFailed (pi : StripePaymentIntent)
  | paymentIntentCanceled (pi : StripePaymentIntent)
  | otherEvent
deriving DecidableEq

/-- Both ledger tables, as threaded through webhook dispatch. -/
structure Ledger where
  payments : List Payment
  cashouts : List Cashout
deriving DecidableEq

/-- Oracles for `handlePaymentIntentSucceeded`: `transfer` is the overall
outcome of the `transferUSDTFromOfframp` call (whose internal retry loop is
modelled separately by `transferUSDTFromOfframp` above), `wait` the outcome
of `waitForTransaction`. -/
structure WebhookChainEnv where
  transfer : Except String TxResp
  wait : Except String (Option Receipt)

/-- The catch block of `handlePaymentIntentSucceeded`: look the Payment up
again by intent id and mark it failed with the causal message. -/
def markPaymentFailed (payments : List Payment) (pid msg : String) : List Payment :=
  match getPaymentByPaymentIntentId payments pid with
  | none => payments
  | some p => updatePayment payments p.id fun q =>
      { q with status := PaymentStatus.failed, error_message := some msg }

/-- Source: `backend/src/controllers/webhookController.ts`
`handlePaymentIntentSucceeded`.  Returns the propagated outcome (`.error`
when the handler rethrows), the final payments table, and the number of
`transferUSDTFromOfframp` invocations. -/
def handlePaymentIntentSucceeded (env : WebhookChainEnv) (pi : StripePaymentIntent)
    (payments : List Payment) : Except String Unit × List Payment × Nat :=
  match getPaymentByPaymentIntentId payments pi.id with
  | none => (Except.ok (), payments, 0)
  | some payment =>
    if payment.status == PaymentStatus.completed || jsTruthyO payment.tx_hash then
      (Except.ok (), payments, 0)
    else
      let st1 := updatePayment payments payment.id fun p =>
        { p with status := PaymentStatus.processing }
      let walletAddress := jsOrOS pi.metadata_wallet_address payment.wallet_address
      if !(jsTruthyS walletAddress) then
        let msg := "Wallet address not found in payment intent metadata"
        (Except.error msg, markPaymentFailed st1 pi.id msg, 0)
      else
        match env.transfer with
        | Except.error e =>
            let msg := "Failed to create USDT transfer transaction: " ++ e
            (Except.error msg, markPaymentFailed st1 pi.id msg, 1)
        | Except.ok _tx =>
            match env.wait with
            | Except.error e =>
                let msg := "Failed to confirm transaction: " ++ e
                (Except.error msg, markPaymentFailed st1 pi.id msg, 1)
            | Except.ok none =>
                let msg := "Transaction failed on-chain. Status: undefined"
                (Except.error msg, markPaymentFailed st1 pi.id msg, 1)
            | Except.ok (some receipt) =>
                if receipt.status == 1 then
                  (Except.ok (),
                    updatePayment st1 payment.id fun p =>
                      { p with tx_hash := some receipt.hash,
                               block_number := some receipt.blockNumber,
                               status := PaymentStatus.completed },
                    1)
                else
                  let msg := "Transaction failed on-chain. Status: " ++ toString receipt.status
                  (Except.error msg, markPaymentFailed st1 pi.id msg, 1)

/-- Source: webhook controller `handlePayoutPaid`. -/
def handlePayoutPaid (cashouts : List Cashout) (payoutId : String) : List Cashout :=
  match getCashoutByPayoutId cashouts payoutId with
  | none => cashouts
  | some cashout => updateCashout cashouts cashout.id fun c =>
      { c with status := CashoutStatus.paid }

/-- Source: webhook controller `handlePayoutFailed`. -/
def handlePayoutFailed (cashouts : List Cashout) (payoutId : String)
    (failureCode failureMessage : Option String) : List Cashout :=
  match getCashoutByPayoutId cashouts payoutId with
  | none => cashouts
  | some cashout => updateCashout cashouts cashout.id fun c =>
      { c with status := CashoutStatus.failed,
               error_message := some ("Stripe payout failed: " ++
                 jsOrOS failureCode "unknown" ++ " - " ++
                 jsOrOS failureMessage "Payout failed") }

/-- Source: webhook controller `handlePayoutCanceled`. -/
def handlePayoutCanceled (cashouts : List Cashout) (payoutId : String) : List Cashout :=
  match getCashoutByPayoutId cashouts payoutId with
  | none => cashouts
  | some cashout => updateCashout cashouts cashout.id fun c =>
      { c with status := CashoutStatus.canceled,
               error_message := some "Stripe payout was canceled" }

/-- Source: webhook controller `handlePaymentIntentFailed`. -/
def handlePaymentIntentFailed (payments : List Payment) (pi : StripePaymentIntent) :
    List Payment :=
  match getPaymentByPaymentIntentId payments pi.id with
  | none => payments
  | some payment => updatePayment payments payment.id fun p =>
      { p with status := PaymentStatus.failed,
               error_message := some ("Stripe payment failed: " ++
                 jsOrOS pi.last_payment_error_message "Payment failed") }

/-- Source: webhook controller `handlePaymentIntentCanceled`. -/
def handlePaymentIntentCanceled (payments : List Payment) (pi : StripePaymentIntent) :
    List Payment :=
  match getPaymentByPaymentIntentId payments pi.id with
  | none => payments
  | some payment => updatePayment payments payment.id fun p =>
      { p with status := PaymentStatus.canceled,
               error_message := some "Payment intent was canceled" }

/-- The switch statement of `handleStripeWebhook` dispatching an
authenticated event to its handler.  Returns the propagated outcome, the
final ledger, and the number of `transferUSDTFromOfframp` invocations. -/
def dispatchStripeEvent (env : WebhookChainEnv) (ev : StripeEvent) (l : Ledger) :
    Except String Unit × Ledger × Nat :=
  match ev with
  | StripeEvent.payoutPaid pid =>
      (Except.ok (), { l with cashouts := handlePayoutPaid l.cashouts pid }, 0)
  | StripeEvent.payoutFailed pid code msg =>
      (Except.ok (), { l with cashouts := handlePayoutFailed l.cashouts pid code msg }, 0)
  | StripeEvent.payoutCanceled pid =>
      (Except.ok (), { l with cashouts := handlePayoutCanceled l.cashouts pid }, 0)
  | StripeEvent.paymentIntentSucceeded pi =>
      let r := handlePaymentIntentSucceeded env pi l.payments
      (r.1, { l with payments := r.2.1 }, r.2.2)
  | StripeEvent.paymentIntentFailed pi =>
      (Except.ok (), { l with payments := handlePaymentIntentFailed l.payments pi }, 0)
  | StripeEvent.paymentIntentCanceled pi =>
      (Except.ok (), { l with payments := handlePaymentIntentCanceled l.payments pi }, 0)
  | StripeEvent.otherEvent => (Except.ok (), l, 0)

/-- Does the switch dispatch this event type to a handler (the default case
ignores the event)? -/
def eventDispatchCount : StripeEvent → Nat
  | StripeEvent.otherEvent => 0
  | _ => 1

/-- A raw error from `stripe.webhooks.constructEvent`: whether it is a
Stripe-typed error, and its message. -/
structure StripeRawError where
  isStripeTyped : Bool
  message : String
deriving DecidableEq

/-- Source: `backend/src/utils/stripe.ts` `verifyWebhookSignature`: forward
the constructed event, rewrapping a throw with the corresponding message. -/
def verifyWebhookSignature (constructEvent : Except StripeRawError StripeEvent) :
    Except String StripeEvent :=
  match constructEvent with
  | Except.ok ev => Except.ok ev
  | Except.error e =>
      if e.isStripeTyped then
        Except.error ("Stripe webhook error: " ++ e.message)
      else
        Except.error ("Failed to verify webhook signature: " ++ e.message)

inductive WebhookAck where
  | missingSignatureHeader
  | received
  | receivedWithError (msg : String)
deriving DecidableEq

structure WebhookOut where
  httpStatus : Nat
  body : WebhookAck
  ledger : Ledger
  dispatched : Nat
  transfers : Nat
deriving DecidableEq

/-- Source: webhook controller `handleStripeWebhook` (POST
/api/webhooks/stripe).  A missing signature header is rejected with 400; a
throw anywhere in the try block (including signature verification failure)
is caught and acknowledged with 200 carrying the error message, to prevent
Stripe from retrying; an authenticated event is dispatched and acknowledged
with 200 regardless of its handler outcome. -/
def handleStripeWebhook (env : WebhookChainEnv) (signatureHeader : Option String)
    (constructEvent : Except StripeRawError StripeEvent) (l : Ledger) : WebhookOut :=
  if !(jsTruthyO signatureHeader) then
    ⟨400, WebhookAck.missingSignatureHeader, l, 0, 0⟩
  else
    match verifyWebhookSignature constructEvent with
    | Except.error m => ⟨200, WebhookAck.receivedWithError m, l, 0, 0⟩
    | Except.ok ev =>
        match dispatchStripeEvent env ev l with
        | (Except.ok _, l2, n) => ⟨200, WebhookAck.received, l2, eventDispatchCount ev, n⟩
        | (Except.error m, l2, n) =>
            ⟨200, WebhookAck.receivedWithError m, l2, eventDispatchCount ev, n⟩

/- ===== Auxiliary definitions used by the verification ===== -/

/-- Tokens of a literal pattern segment. -/
def litToks (s : List Char) : List RTok := s.map RTok.lit

/-- Tokens produced for an interpolated amount segment (digits and dots; a
dot becomes the wildcard). -/
def amountToks (s : List Char) : List RTok :=
  s.map fun c => if c = '.' then RTok.anyChar else RTok.lit c

/-- Per-character lowercasing on character lists. -/
def lowerL (s : List Char) : List Char := s.map Char.toLower

/-- Number of Cashout rows carrying a given inbound transaction hash. -/
def countTxHash (cashouts : List Cashout) (h : String) : Nat :=
  cashouts.countP fun c => c.tx_hash_onchain == h

/-- A decimal-numeral character: an ASCII digit or the decimal point. -/
def decimalChar (c : Char) : Prop := (48 ≤ c.toNat ∧ c.toNat ≤ 57) ∨ c = '.'

instance (c : Char) : Decidable (decimalChar c) := by
  unfold decimalChar
  infer_instance

/- ===== General helper lemmas ===== -/

theorem char_toNat_ofNat_lt {n : Nat} (h : n < 55296) : (Char.ofNat n).toNat = n := by
  have hv : n.isValidChar := Or.inl h
  rw [Char.ofNat, dif_pos hv]
  rfl

theorem toLower_eq_self {c : Char} (h : c.toNat < 65 ∨ 90 < c.toNat) : c.toLower = c := by
  unfold Char.toLower
  have hn : ¬(c.toNat ≥ 65 ∧ c.toNat ≤ 90) := by omega
  simp [hn]

theorem toLower_toLower (c : Char) : c.toLower.toLower = c.toLower := by
  by_cases h : c.toNat ≥ 65 ∧ c.toNat ≤ 90
  · have h1 : c.toLower = Char.ofNat (c.toNat + 32) := by
      unfold Char.toLower
      simp [h]
    have h2 : (Char.ofNat (c.toNat + 32)).toNat = c.toNat + 32 :=
      char_toNat_ofNat_lt (by omega)
    rw [h1]
    apply toLower_eq_self
    rw [h2]
    omega
  · have e : c.toLower = c := toLower_eq_self (by omega)
    simp [e]

theorem charCI_self_toLower (c : Char) : charCI c c.toLower = true := by
  unfold charCI
  rw [toLower_toLower]
  simp

theorem okAny_toLower {c : Char} (h : okAny c = true) : okAny c.toLower = true := by
  by_cases hu : c.toNat ≥ 65 ∧ c.toNat ≤ 90
  · have h1 : c.toLower = Char.ofNat (c.toNat + 32) := by
      unfold Char.toLower
      simp [hu]
    have h2 : (Char.ofNat (c.toNat + 32)).toNat = c.toNat + 32 :=
      char_toNat_ofNat_lt (by omega)
    have hne1 : Char.ofNat (c.toNat + 32) ≠ '\n' := by
      intro he
      have := congrArg Char.toNat he
      rw [h2] at this
      have hn : ('\n').toNat = 10 := by decide
      rw [hn] at this
      omega
    have hne2 : Char.ofNat (c.toNat + 32) ≠ '\r' := by
      intro he
      have := congrArg Char.toNat he
      rw [h2] at this
      have hn : ('\r').toNat = 13 := by decide
      rw [hn] at this
      omega
    rw [h1]
    simp [okAny, hne1, hne2]
  · rw [toLower_eq_self (by omega)]
    exact h

theorem lowerL_lowerL (s : List Char) : lowerL (lowerL s) = lowerL s := by
  simp [lowerL, List.map_map, Function.comp_def, toLower_toLower]

theorem matchTokens_lit_append (s : List Char) (ts : List RTok) (rest : List Char) :
    matchTokens (litToks s ++ ts) (lowerL s ++ rest) = matchTokens ts rest := by
  induction s with
  | nil => simp [litToks, lowerL]
  | cons c s ih =>
      simp only [litToks, lowerL, List.map_cons, List.cons_append, matchTokens,
        charCI_self_toLower, Bool.true_and]
      simpa [litToks, lowerL] using ih

theorem matchTokens_amount_append (s : List Char) (ts : List RTok) (rest : List Char)
    (h : ∀ c ∈ s, decimalChar c) :
    matchTokens (amountToks s ++ ts) (lowerL s ++ rest) = matchTokens ts rest := by
  induction s with
  | nil => simp [amountToks, lowerL]
  | cons c s ih =>
      have hc := h c (by simp)
      have hs : ∀ x ∈ s, decimalChar x := fun x hx => h x (by simp [hx])
      rcases hc with hd | hdot
      · have hne : ¬(c = '.') := by
          intro he
          subst he
          have : ('.').toNat = 46 := by decide
          omega
        simp only [amountToks, lowerL, List.map_cons, List.cons_append, matchTokens,
          hne, if_neg hne, charCI_self_toLower, Bool.true_and]
        simpa [amountToks, lowerL] using ih hs
      · subst hdot
        have hlow : ('.' : Char).toLower = '.' := by decide
        have hok : okAny ('.' : Char) = true := by decide
        simp only [amountToks, lowerL, List.map_cons, List.cons_append, matchTokens,
          if_pos rfl, hlow, hok, Bool.true_and]
        simpa [amountToks, lowerL] using ih hs

theorem matchTokens_anyPlus (u : List Char) (ts : List RTok) (rest : List Char)
    (hne : u ≠ []) (hok : ∀ c ∈ u, okAny c = true)
    (h : matchTokens ts rest = true) :
    matchTokens (RTok.anyPlus :: ts) (u ++ rest) = true := by
  induction u with
  | nil => exact absurd rfl hne
  | cons c u ih =>
      by_cases hu : u = []
      · subst hu
        simp [matchTokens, hok c (by simp), h]
      · have hrec := ih hu (fun x hx => hok x (by simp [hx]))
        have hokc := hok c (by simp)
        rw [List.cons_append]
        have heq : matchTokens (RTok.anyPlus :: ts) (c :: (u ++ rest)) =
            (okAny c && (matchTokens ts (u ++ rest) ||
              matchTokens (RTok.anyPlus :: ts) (u ++ rest))) := rfl
        rw [heq, hokc, hrec]
        simp

theorem regexTest_of_matchZero {ts : List RTok} {s : List Char}
    (h : matchTokens ts s = true) : regexTest ts s = true := by
  unfold regexTest
  rw [List.any_eq_true]
  refine ⟨0, by simp, by simpa using h⟩

theorem parseRegex_lit_append (s rest : List Char)
    (h : ∀ c ∈ s, c ≠ '\\' ∧ c ≠ '.') :
    parseRegex (s ++ rest) = litToks s ++ parseRegex rest := by
  induction s with
  | nil => simp [litToks]
  | cons c s ih =>
      have hc := h c (by simp)
      have hs : ∀ x ∈ s, x ≠ '\\' ∧ x ≠ '.' := fun x hx => h x (by simp [hx])
      cases hsr : s ++ rest with
      | nil =>
          have h0 := List.append_eq_nil.mp hsr
          rw [h0.1, h0.2]
          simp [parseRegex, litToks, hc.2, h0.1]
      | cons d t =>
          have he : (c :: s) ++ rest = c :: d :: t := by rw [List.cons_append, hsr]
          rw [he]
          have ihr : parseRegex (d :: t) = litToks s ++ parseRegex rest := by
            rw [← hsr]
            exact ih hs
          simp [parseRegex, litToks, hc.1, hc.2, ihr]

theorem parseRegex_amount_append (s rest : List Char)
    (h : ∀ c ∈ s, decimalChar c)
    (hrest : ∀ t, rest ≠ '+' :: t) :
    parseRegex (s ++ rest) = amountToks s ++ parseRegex rest := by
  induction s with
  | nil => simp [amountToks]
  | cons c s ih =>
      have hc := h c (by simp)
      have hs : ∀ x ∈ s, decimalChar x := fun x hx => h x (by simp [hx])
      have hcb : ¬(c = '\\') := by
        intro he
        subst he
        have : ('\\').toNat = 92 := by decide
        rcases hc with hd | hdot
        · omega
        · exact absurd (congrArg Char.toNat hdot) (by decide)
      cases hsr : s ++ rest with
      | nil =>
          have h0 := List.append_eq_nil.mp hsr
          rw [h0.1, h0.2]
          by_cases hdot : c = '.'
          · subst hdot
            simp [parseRegex, amountToks, h0.1]
          · simp [parseRegex, amountToks, hdot, h0.1]
      | cons d t =>
          have he : (c :: s) ++ rest = c :: d :: t := by rw [List.cons_append, hsr]
          rw [he]
          have hdp : ¬(d = '+') := by
            cases s with
            | nil =>
                intro he2
                subst he2
                exact hrest t (by simpa using hsr)
            | cons x xs =>
                have hx : decimalChar x := hs x (by simp)
                have hd : d = x := by
                  have : x :: (xs ++ rest) = d :: t := by simpa using hsr
                  exact (List.cons.injEq .. ▸ this).1.symm
                subst hd
                intro he2
                subst he2
                have : ('+').toNat = 43 := by decide
                rcases hx with hdd | hdot
                · omega
                · exact absurd (congrArg Char.toNat hdot) (by decide)
          have ihr : parseRegex (d :: t) = amountToks s ++ parseRegex rest := by
            rw [← hsr]
            exact ih hs
          by_cases hdot : c = '.'
          · subst hdot
            simp [parseRegex, amountToks, hdp, ihr]
          · simp [parseRegex, amountToks, hcb, hdot, ihr]

theorem toLower_safe {c : Char} (h : c ≠ '\\' ∧ c ≠ '.') :
    c.toLower ≠ '\\' ∧ c.toLower ≠ '.' := by
  by_cases hu : c.toNat ≥ 65 ∧ c.toNat ≤ 90
  · have h1 : c.toLower = Char.ofNat (c.toNat + 32) := by
      unfold Char.toLower
      simp [hu]
    have h2 : (Char.ofNat (c.toNat + 32)).toNat = c.toNat + 32 :=
      char_toNat_ofNat_lt (by omega)
    constructor
    · intro he
      rw [h1] at he
      have := congrArg Char.toNat he
      rw [h2] at this
      have hb : ('\\').toNat = 92 := by decide
      rw [hb] at this
      omega
    · intro he
      rw [h1] at he
      have := congrArg Char.toNat he
      rw [h2] at this
      have hb : ('.').toNat = 46 := by decide
      rw [hb] at this
      omega
  · rw [toLower_eq_self (by omega)]
    exact h

theorem lowerL_append (a b : List Char) : lowerL (a ++ b) = lowerL a ++ lowerL b :=
  List.map_append _ a b

/-- Claim C10: implicit round-trip of the cashout message format.  For every
address whose characters contain neither a backslash nor a dot (which covers
every valid hex wallet address, in any letter case), every amount string
made of digits and decimal points, and every non-empty timestamp free of
line terminators, the message built by `createCashoutMessage` is accepted by
`validateCashoutMessage` for the same address and amount. -/
theorem createCashoutMessage_round_trip (address amount timestamp : String)
    (haddr : ∀ c ∈ address.data, c ≠ '\\' ∧ c ≠ '.')
    (hamt : ∀ c ∈ amount.data, decimalChar c)
    (hts1 : timestamp.data ≠ [])
    (hts2 : ∀ c ∈ timestamp.data, okAny c = true) :
    validateCashoutMessage (createCashoutMessage address amount timestamp) address amount = true := by
  have hna_safe : ∀ c ∈ lowerL address.data, c ≠ '\\' ∧ c ≠ '.' := by
    intro c hc
    rcases List.mem_map.mp hc with ⟨a, ha, rfl⟩
    exact toLower_safe (haddr a ha)
  -- the first generated pattern source, with association normalized
  have hp1 : ("I request cashout " ++ amount ++ " USDT at .+\\n\\nAddress: " ++
      jsToLower address).data =
      "I request cashout ".data ++ (amount.data ++
        (" USDT at .+\\n\\nAddress: ".data ++ lowerL address.data)) := by
    simp [List.append_assoc]
    rfl
  -- token list of the first pattern
  have htok : parseRegex ("I request cashout " ++ amount ++ " USDT at .+\\n\\nAddress: " ++
      jsToLower address).data =
      litToks "I request cashout ".data ++
        (amountToks amount.data ++
          (litToks " USDT at ".data ++
            (RTok.anyPlus :: RTok.lit '\n' :: RTok.lit '\n' ::
              (litToks "Address: ".data ++ litToks (lowerL address.data))))) := by
    rw [hp1]
    rw [parseRegex_lit_append _ _ (by decide)]
    rw [parseRegex_amount_append _ _ hamt (by
      intro t ht
      have ht2 : (' ' : Char) :: ("USDT at .+\\n\\nAddress: ".data ++ lowerL address.data) =
          '+' :: t := ht
      injection ht2 with h1 _
      exact absurd h1 (by decide))]
    have hmid : " USDT at .+\\n\\nAddress: ".data ++ lowerL address.data =
        " USDT at ".data ++ ('.' :: '+' :: '\\' :: 'n' :: '\\' :: 'n' ::
          ("Address: ".data ++ lowerL address.data)) := by
      simp
    rw [hmid]
    rw [parseRegex_lit_append _ _ (by decide)]
    have hdotplus : ∀ r, parseRegex ('.' :: '+' :: r) = RTok.anyPlus :: parseRegex r := by
      intro r
      simp [parseRegex]
    have hbsn : ∀ r, parseRegex ('\\' :: 'n' :: r) = RTok.lit '\n' :: parseRegex r := by
      intro r
      simp [parseRegex]
    rw [hdotplus, hbsn, hbsn]
    rw [parseRegex_lit_append _ _ (by decide)]
    have hfin : parseRegex (lowerL address.data) = litToks (lowerL address.data) := by
      have := parseRegex_lit_append (lowerL address.data) [] hna_safe
      simpa [parseRegex] using this
    rw [hfin]
  -- the lowercased message, with association normalized
  have hmsg : (jsToLower (createCashoutMessage address amount timestamp)).data =
      lowerL "I request cashout ".data ++
        (lowerL amount.data ++
          (lowerL " USDT at ".data ++
            (lowerL timestamp.data ++
              (lowerL "\n\nAddress: ".data ++ lowerL address.data)))) := by
    show lowerL (createCashoutMessage address amount timestamp).data = _
    unfold createCashoutMessage
    simp only [String.data_append, lowerL_append, List.append_assoc]
  -- the match at start position 0
  have hmatch : matchTokens
      (parseRegex ("I request cashout " ++ amount ++ " USDT at .+\\n\\nAddress: " ++
        jsToLower address).data)
      (jsToLower (createCashoutMessage address amount timestamp)).data = true := by
    rw [htok, hmsg]
    rw [matchTokens_lit_append]
    rw [matchTokens_amount_append _ _ _ hamt]
    rw [matchTokens_lit_append]
    apply matchTokens_anyPlus
    · simpa [lowerL] using hts1
    · intro c hc
      rcases List.mem_map.mp hc with ⟨a, ha, rfl⟩
      exact okAny_toLower (hts2 a ha)
    · have hsplit : lowerL "\n\nAddress: ".data ++ lowerL address.data =
          lowerL "\n\nAddress: ".data ++ (lowerL address.data ++ []) := by simp
      rw [hsplit]
      have hT : RTok.lit '\n' :: RTok.lit '\n' ::
          (litToks "Address: ".data ++ litToks (lowerL address.data)) =
          litToks "\n\nAddress: ".data ++ (litToks (lowerL address.data) ++ []) := by
        simp [litToks]
      rw [hT]
      rw [matchTokens_lit_append]
      have := matchTokens_lit_append (lowerL address.data) [] []
      rw [lowerL_lowerL] at this
      simpa using this
  unfold validateCashoutMessage
  simp only [List.any_eq_true]
  refine ⟨"I request cashout " ++ amount ++ " USDT at .+\\n\\nAddress: " ++ jsToLower address,
    by simp [jsToLower], ?_⟩
  exact regexTest_of_matchZero hmatch

/-- Witness for C10 at a concrete mixed-case address, fractional amount and
timestamp. -/
theorem createCashoutMessage_round_trip_witness :
    validateCashoutMessage (createCashoutMessage "0xAbC9" "12.5" "2024-01-01 10:00")
      "0xAbC9" "12.5" = true :=
  createCashoutMessage_round_trip "0xAbC9" "12.5" "2024-01-01 10:00"
    (by decide) (by decide) (by decide) (by decide)

/- ===== Claim C7: bounded transient-only retry ===== -/

theorem transferLoop_attempts_le (outcome : Nat → Except JsError TxResp) (m : Nat) :
    ∀ fuel attempt le, (transferLoop outcome m fuel attempt le).attempts ≤ fuel := by
  intro fuel
  induction fuel with
  | zero =>
      intro attempt le
      simp [transferLoop]
  | succ fuel ih =>
      intro attempt le
      unfold transferLoop
      cases outcome attempt with
      | ok tx => simp
      | error e =>
          by_cases hc : isRetryableError e && decide (attempt < m)
          · simp only [hc, if_pos]
            have := ih (attempt + 1) (some e)
            simpa using Nat.succ_le_succ this
          · simp [hc]

/-- Claim C7: the on-ramp transfer retry loop makes at most 3 attempts; a
failure not classified transient is rethrown immediately with no further
attempt and no backoff wait; and when all 3 attempts fail with the first two
classified transient, the loop waits 2 s then 4 s between attempts (2 s times
the attempt number) and propagates the last error. -/
theorem transferUSDTFromOfframp_retry_policy (outcome : Nat → Except JsError TxResp) :
    (transferUSDTFromOfframp outcome 3).attempts ≤ 3 ∧
    (∀ e, outcome 1 = Except.error e → isRetryableError e = false →
      transferUSDTFromOfframp outcome 3 =
        { result := Except.error ("Failed to transfer USDT from offramp wallet: " ++ messageOf e),
          attempts := 1, waits := [] }) ∧
    (∀ e1 e2 e3,
      outcome 1 = Except.error e1 → isRetryableError e1 = true →
      outcome 2 = Except.error e2 → isRetryableError e2 = true →
      outcome 3 = Except.error e3 →
      transferUSDTFromOfframp outcome 3 =
        { result := Except.error ("Failed to transfer USDT from offramp wallet: " ++ messageOf e3),
          attempts := 3, waits := [2, 4] }) := by
  refine ⟨transferLoop_attempts_le outcome 3 3 1 none, ?_, ?_⟩
  · intro e h1 hr
    unfold transferUSDTFromOfframp
    unfold transferLoop
    rw [h1]
    simp [hr]
  · intro e1 e2 e3 h1 hr1 h2 hr2 h3
    unfold transferUSDTFromOfframp
    unfold transferLoop
    rw [h1]
    simp only [hr1, Bool.true_and, decide_eq_true_eq, if_pos (by omega : (1 : Nat) < 3)]
    unfold transferLoop
    rw [h2]
    simp only [hr2, Bool.true_and, decide_eq_true_eq, if_pos (by omega : (2 : Nat) < 3)]
    unfold transferLoop
    rw [h3]
    simp

/-- Witness for C7: all three attempts fail with a transient timeout; the run
makes exactly 3 attempts, waits 2 s then 4 s, and propagates the last error. -/
theorem transferUSDTFromOfframp_retry_policy_witness :
    transferUSDTFromOfframp (fun _ => Except.error ⟨some "timeout", none⟩) 3 =
      { result := Except.error ("Failed to transfer USDT from offramp wallet: " ++
          messageOf ⟨some "timeout", none⟩),
        attempts := 3, waits := [2, 4] } :=
  (transferUSDTFromOfframp_retry_policy _).2.2 _ _ _ rfl (by decide) rfl (by decide) rfl

/- ===== Claim C1: on-ramp idempotency gate ===== -/

/-- Counterexample to C1 as stated: a Payment row whose `tx_hash` is the
empty string is non-null, yet the JS truthiness gate
`payment.status === 'completed' || payment.tx_hash` does not fire for it, so
a duplicate delivery performs a transfer (counter 1) and mutates the row
rather than being a no-op. -/
theorem duplicate_event_nonnull_empty_hash_not_noop :
    (Payment.mk 1 "pi_1" "0xuser" (some 5) "usd" (some 5) 1 (some "") none
        PaymentStatus.pending none).tx_hash ≠ none ∧
    (handlePaymentIntentSucceeded ⟨Except.ok ⟨"0xtx"⟩, Except.ok (some ⟨"0xtx", 7, 1⟩)⟩
        ⟨"pi_1", none, none⟩
        [Payment.mk 1 "pi_1" "0xuser" (some 5) "usd" (some 5) 1 (some "") none
          PaymentStatus.pending none]).2.2 = 1 ∧
    handlePaymentIntentSucceeded ⟨Except.ok ⟨"0xtx"⟩, Except.ok (some ⟨"0xtx", 7, 1⟩)⟩
        ⟨"pi_1", none, none⟩
        [Payment.mk 1 "pi_1" "0xuser" (some 5) "usd" (some 5) 1 (some "") none
          PaymentStatus.pending none] ≠
      (Except.ok (),
        [Payment.mk 1 "pi_1" "0xuser" (some 5) "usd" (some 5) 1 (some "") none
          PaymentStatus.pending none], 0) := by
  refine ⟨by decide, by decide, by decide⟩

/-- Claim C1 (amended): for a Payment row that is already `completed` or
already has a truthy (non-null and non-empty) tx hash, a duplicate delivery
of `payment_intent.succeeded` is a no-op: it performs no on-chain transfer
and leaves the payments table unchanged, returning success; hence two
sequential deliveries perform exactly one transfer. -/
theorem handlePaymentIntentSucceeded_idempotency_gate
    (env : WebhookChainEnv) (pi : StripePaymentIntent) (payments : List Payment)
    (payment : Payment)
    (hfind : getPaymentByPaymentIntentId payments pi.id = some payment)
    (hdone : payment.status = PaymentStatus.completed ∨ jsTruthyO payment.tx_hash = true) :
    handlePaymentIntentSucceeded env pi payments = (Except.ok (), payments, 0) := by
  unfold handlePaymentIntentSucceeded
  rw [hfind]
  have hgate : (payment.status == PaymentStatus.completed || jsTruthyO payment.tx_hash) = true := by
    rcases hdone with h | h
    · simp [h]
    · simp [h]
  simp [hgate]

/-- Witness for C1 (amended): a duplicate delivery against a completed row
with a populated tx hash is a no-op. -/
theorem handlePaymentIntentSucceeded_idempotency_gate_witness :
    handlePaymentIntentSucceeded ⟨Except.ok ⟨"0xtx"⟩, Except.ok none⟩ ⟨"pi_1", none, none⟩
      [Payment.mk 1 "pi_1" "0xuser" (some 5) "usd" (some 5) 1 (some "0xdone") (some 3)
        PaymentStatus.completed none] =
    (Except.ok (),
      [Payment.mk 1 "pi_1" "0xuser" (some 5) "usd" (some 5) 1 (some "0xdone") (some 3)
        PaymentStatus.completed none], 0) :=
  handlePaymentIntentSucceeded_idempotency_gate ⟨Except.ok ⟨"0xtx"⟩, Except.ok none⟩
    ⟨"pi_1", none, none⟩ _
    (Payment.mk 1 "pi_1" "0xuser" (some 5) "usd" (some 5) 1 (some "0xdone") (some 3)
      PaymentStatus.completed none) (by decide) (Or.inl rfl)

/- ===== Claim C6: webhook authentication vs acknowledgment ===== -/

/-- Counterexample to C6 as stated: a request whose signature header is
present but fails verification is NOT rejected — the catch block still
acknowledges it with HTTP 200 (`received: true` plus the error detail).  It
is true that no handler is dispatched and the ledger is untouched, but the
claimed outright rejection (non-success response) does not happen. -/
theorem unverified_webhook_acknowledged_200 :
    handleStripeWebhook ⟨Except.ok ⟨"t"⟩, Except.ok none⟩ (some "sig-header")
      (Except.error ⟨true, "No signatures found"⟩) ⟨[], []⟩ =
    ⟨200, WebhookAck.receivedWithError ("Stripe webhook error: " ++ "No signatures found"),
      ⟨[], []⟩, 0, 0⟩ := by
  decide

/-- Claim C6 (amended): a request with no signature header is rejected with
400 and nothing is dispatched; a request whose signature fails verification
is not dispatched and causes no ledger change, but is acknowledged with 200
carrying the error detail; an authenticated event whose processing fails is
also acknowledged with 200 carrying the failure detail. -/
theorem handleStripeWebhook_auth_vs_ack (env : WebhookChainEnv) (sig : Option String)
    (ce : Except StripeRawError StripeEvent) (l : Ledger) :
    (jsTruthyO sig = false →
      handleStripeWebhook env sig ce l = ⟨400, WebhookAck.missingSignatureHeader, l, 0, 0⟩) ∧
    (∀ e, ce = Except.error e → jsTruthyO sig = true →
      ∃ m, handleStripeWebhook env sig ce l = ⟨200, WebhookAck.receivedWithError m, l, 0, 0⟩) ∧
    (∀ ev m l2 n, ce = Except.ok ev → jsTruthyO sig = true →
      dispatchStripeEvent env ev l = (Except.error m, l2, n) →
      handleStripeWebhook env sig ce l =
        ⟨200, WebhookAck.receivedWithError m, l2, eventDispatchCount ev, n⟩) := by
  refine ⟨?_, ?_, ?_⟩
  · intro h
    unfold handleStripeWebhook
    simp [h]
  · intro e hce hsig
    unfold handleStripeWebhook
    rw [hce]
    unfold verifyWebhookSignature
    by_cases ht : e.isStripeTyped
    · exact ⟨"Stripe webhook error: " ++ e.message, by simp [hsig, ht]⟩
    · exact ⟨"Failed to verify webhook signature: " ++ e.message, by simp [hsig, ht]⟩
  · intro ev m l2 n hce hsig hdisp
    unfold handleStripeWebhook
    rw [hce]
    unfold verifyWebhookSignature
    simp [hsig, hdisp]

/-- Witness for C6 (amended), exercising the unverified-signature conjunct at
a concrete input. -/
theorem handleStripeWebhook_auth_vs_ack_witness :
    ∃ m, handleStripeWebhook ⟨Except.ok ⟨"t"⟩, Except.ok none⟩ (some "sig")
      (Except.error ⟨false, "bad payload"⟩) ⟨[], []⟩ =
      ⟨200, WebhookAck.receivedWithError m, ⟨[], []⟩, 0, 0⟩ :=
  (handleStripeWebhook_auth_vs_ack ⟨Except.ok ⟨"t"⟩, Except.ok none⟩ (some "sig")
    (Except.error ⟨false, "bad payload"⟩) ⟨[], []⟩).2.1 ⟨false, "bad payload"⟩ rfl (by decide)

/- ===== Claim C8: per-transaction token cap enforced before the charge ===== -/

/-- Claim C8: when the computed token amount exceeds the 5-USDT cap, the
on-ramp initiation is rejected with a 400 validation error carrying the cap
and the requested amount, with no payment-processor call (`stripeCalls = 0`)
and no Payment row persisted (the payments table is returned unchanged).
The guard `amountUSDT > 5` is evaluated before `createPaymentIntent` and
before `createPayment`. -/
theorem createPaymentIntentHandler_cap_before_charge
    (env : PaymentEnv) (req : PaymentIntentReq) (payments : List Payment)
    (hW1 : jsTruthyS req.walletAddress = true)
    (hW2 : env.isAddr req.walletAddress = true)
    (hA1 : jsTruthyS req.amount = true)
    (hA2 : jsLe0 (env.parseNum req.amount) = false)
    (hC1 : jsTruthyS req.currency = true)
    (hC2 : ["usd", "eur"].contains (jsToLower req.currency) = true)
    (hcap : jsGt (amountUSDTof env req) 5 = true) :
    createPaymentIntentHandler env req payments =
      ⟨400, PaymentIntentResp.overCap "5" (amountUSDTof env req), payments, 0⟩ := by
  have g1 : (!jsTruthyS req.walletAddress || !env.isAddr req.walletAddress) = false := by
    rw [hW1, hW2]
    rfl
  have g2 : (!jsTruthyS req.amount || jsLe0 (env.parseNum req.amount)) = false := by
    rw [hA1, hA2]
    rfl
  have g3 : (!jsTruthyS req.currency || !(["usd", "eur"].contains (jsToLower req.currency)))
      = false := by
    rw [hC1, hC2]
    rfl
  unfold createPaymentIntentHandler
  simp only [g1, g2, g3, Bool.false_eq_true, if_false, hcap, if_true]

/-- Witness for C8: a 10 USD request at a 1:1 fallback rate computes 10 USDT,
which exceeds the 5-USDT cap and is rejected before any Stripe call. -/
theorem createPaymentIntentHandler_cap_before_charge_witness :
    createPaymentIntentHandler
      ⟨fun _ => true, fun _ => some 10, Except.error "rate feed down", Except.ok 100,
        Except.ok "pi_new", 1⟩
      ⟨"10", "usd", "0xwallet"⟩ [] =
      ⟨400, PaymentIntentResp.overCap "5"
        (amountUSDTof ⟨fun _ => true, fun _ => some 10, Except.error "rate feed down",
          Except.ok 100, Except.ok "pi_new", 1⟩ ⟨"10", "usd", "0xwallet"⟩), [], 0⟩ :=
  createPaymentIntentHandler_cap_before_charge _ _ _
    (by decide) rfl (by decide) (by decide) (by decide) (by decide)
    (by
      simp [amountUSDTof, exchangeRateOf, jsMul, jsGt]
      norm_num)

/- ===== Claim C9: exchange-rate fallback to 1.0 ===== -/

/-- Claim C9: when the exchange-rate lookup throws, on-ramp initiation does
not propagate the error: it proceeds with rate 1.0, the persisted Payment
row records exchange rate 1 and a token amount equal to the (6-decimal
rounded) fiat amount, and the computed token amount is exactly the parsed
fiat amount; when the fiat amount has at most six decimal places, the stored
token amount equals it exactly. -/
theorem createPaymentIntentHandler_rate_fallback
    (env : PaymentEnv) (req : PaymentIntentReq) (payments : List Payment)
    (a : ℚ) (e pid : String)
    (hW1 : jsTruthyS req.walletAddress = true)
    (hW2 : env.isAddr req.walletAddress = true)
    (hA1 : jsTruthyS req.amount = true)
    (hA2 : jsLe0 (env.parseNum req.amount) = false)
    (hC1 : jsTruthyS req.currency = true)
    (hC2 : ["usd", "eur"].contains (jsToLower req.currency) = true)
    (hRate : env.rate = Except.error e)
    (hParse : env.parseNum req.amount = some a)
    (hcap : a ≤ 5)
    (hbal : offrampBalanceAllows env (some a) = true)
    (hint : env.intent = Except.ok pid) :
    amountUSDTof env req = some a ∧
    createPaymentIntentHandler env req payments =
      ⟨200, PaymentIntentResp.intentCreated pid (some (toFixed6 a)) 1,
        createPayment payments
          { id := env.nextPaymentId, payment_intent_id := pid,
            wallet_address := req.walletAddress, amount_fiat := some a,
            fiat_currency := jsToLower req.currency, amount_usdt := some (toFixed6 a),
            exchange_rate := 1, tx_hash := none, block_number := none,
            status := PaymentStatus.pending, error_message := none }, 1⟩ ∧
    (∀ n : ℤ, a = (n : ℚ) / 1000000 → toFixed6 a = a) := by
  have hrate1 : exchangeRateOf env = 1 := by
    unfold exchangeRateOf
    rw [hRate]
  have hamt : amountUSDTof env req = some a := by
    unfold amountUSDTof
    rw [hParse, hrate1]
    simp [jsMul]
  refine ⟨hamt, ?_, ?_⟩
  · have g1 : (!jsTruthyS req.walletAddress || !env.isAddr req.walletAddress) = false := by
      rw [hW1, hW2]
      rfl
    have g2 : (!jsTruthyS req.amount || jsLe0 (env.parseNum req.amount)) = false := by
      rw [hA1, hA2]
      rfl
    have g3 : (!jsTruthyS req.currency || !(["usd", "eur"].contains (jsToLower req.currency)))
        = false := by
      rw [hC1, hC2]
      rfl
    have hgt : jsGt (some a) 5 = false := by
      simp only [jsGt, decide_eq_false_iff_not]
      exact not_lt.mpr hcap
    have hA2c : jsLe0 (some a) = false := by
      rw [← hParse]
      exact hA2
    unfold createPaymentIntentHandler
    simp only [g1, g2, g3, Bool.false_eq_true, if_false, hamt, hgt, hbal,
      Bool.not_true, if_true, hint, hrate1, hParse, jsToFixed6]
    simp [hA1, hA2c]
  · intro n hn
    subst hn
    unfold toFixed6
    have h6 : ((n : ℚ) / 1000000) * 1000000 = (n : ℚ) := by
      field_simp
    rw [h6]
    have hfl : ⌊(n : ℚ) + 1 / 2⌋ = n := by
      rw [Int.floor_int_add]
      have h0 : ⌊(1 / 2 : ℚ)⌋ = 0 := by
        rw [Int.floor_eq_zero_iff]
        constructor <;> norm_num
      rw [h0]
      ring
    rw [hfl]

/-- Witness for C9: amount 2.5 with a throwing rate feed yields rate 1 and a
row whose token amount equals the fiat amount. -/
theorem createPaymentIntentHandler_rate_fallback_witness :
    createPaymentIntentHandler
      ⟨fun _ => true, fun _ => some (5 / 2), Except.error "rate feed down", Except.ok 100,
        Except.ok "pi_new", 1⟩
      ⟨"2.5", "usd", "0xwallet"⟩ [] =
      ⟨200, PaymentIntentResp.intentCreated "pi_new" (some (toFixed6 (5 / 2))) 1,
        createPayment []
          { id := 1, payment_intent_id := "pi_new", wallet_address := "0xwallet",
            amount_fiat := some (5 / 2), fiat_currency := jsToLower "usd",
            amount_usdt := some (toFixed6 (5 / 2)), exchange_rate := 1, tx_hash := none,
            block_number := none, status := PaymentStatus.pending,
            error_message := none }, 1⟩ ∧
    toFixed6 (5 / 2) = 5 / 2 := by
  have h := createPaymentIntentHandler_rate_fallback
    ⟨fun _ => true, fun _ => some (5 / 2), Except.error "rate feed down", Except.ok 100,
      Except.ok "pi_new", 1⟩
    ⟨"2.5", "usd", "0xwallet"⟩ [] (5 / 2) "rate feed down" "pi_new"
    (by decide) rfl (by decide)
    (by simp [jsLe0])
    (by decide) (by decide) rfl rfl
    (by norm_num)
    (by
      simp [offrampBalanceAllows, jsLt]
      norm_num)
    rfl
  exact ⟨h.2.1, h.2.2 2500000 (by norm_num)⟩

/- ===== Claim C3: batch all-or-nothing reconciliation ===== -/

theorem updatePayroll_good (st : List Payroll) (pid : String) (f : Payroll → Payroll) :
    ∀ q ∈ updatePayroll st pid f, (q.payroll_id == pid) = true → ∃ r, q = f r := by
  intro q hq hqid
  rcases List.mem_map.mp hq with ⟨r, hr, hrq⟩
  by_cases hb : (r.payroll_id == pid) = true
  · exact ⟨r, by rw [← hrq, if_pos hb]⟩
  · exfalso
    rw [if_neg hb] at hrq
    rw [← hrq] at hqid
    exact hb hqid

theorem foldl_updatePayroll_good (f : Payroll → Payroll) (pid : String) :
    ∀ (batch : List Payroll) (st : List Payroll), batch ≠ [] →
      (∀ b ∈ batch, b.payroll_id = pid) →
      ∀ q ∈ batch.foldl (fun acc b => updatePayroll acc b.payroll_id f) st,
        (q.payroll_id == pid) = true → ∃ r, q = f r := by
  intro batch
  induction batch with
  | nil => intro st h; exact absurd rfl h
  | cons b bs ih =>
      intro st hne hall q hq hqid
      by_cases hbs : bs = []
      · subst hbs
        simp only [List.foldl] at hq
        rw [hall b (by simp)] at hq
        exact updatePayroll_good _ _ _ q hq hqid
      · simp only [List.foldl] at hq
        exact ih (updatePayroll st b.payroll_id f) hbs
          (fun x hx => hall x (by simp [hx])) q hq hqid

/-- Claim C3: with a verified transfer set in hand, `executePayroll` either
(a) fails the whole batch on an amount mismatch, changing no row; or
(b) fails the whole batch when some expected recipient is missing, changing
no row and reporting exactly the expected recipients that are not in the
received set; or (c), when every expected recipient is satisfied, marks
every row of the batch completed with the same tx hash and the verified
block number. -/
theorem executePayroll_all_or_nothing (env : PayrollEnv) (req : PayrollReq)
    (payrolls : List Payroll) (v : PayrollVerification)
    (batch : List Payroll) (expected : List (String × String))
    (hbatch : batch = getPayrollsByPayrollId payrolls req.payrollId)
    (hexp : expected = buildExpected batch)
    (h0 : jsTruthyS req.payrollId = true)
    (h1 : jsTruthyS req.txHash = true)
    (h2 : batch ≠ [])
    (h3 : env.verifyPayroll = Except.ok v) :
    (∀ payload,
      scanTransfers env.parseNum expected v.transfers [] = Except.error payload →
      executePayroll env req payrolls =
        ⟨400, PayrollResp.amountMismatch payload.1 payload.2.1 payload.2.2, payrolls⟩) ∧
    (∀ received,
      scanTransfers env.parseNum expected v.transfers [] = Except.ok received →
      received.length ≠ expected.length →
      executePayroll env req payrolls =
        ⟨400, PayrollResp.notAllPaid ((expected.map Prod.fst).filter
          fun addr => !(received.contains addr)), payrolls⟩ ∧
      (∀ addr, addr ∈ (expected.map Prod.fst).filter (fun addr => !(received.contains addr)) ↔
        (addr ∈ expected.map Prod.fst ∧ addr ∉ received))) ∧
    (∀ received,
      scanTransfers env.parseNum expected v.transfers [] = Except.ok received →
      received.length = expected.length →
      ∀ q ∈ (executePayroll env req payrolls).payrolls, q.payroll_id = req.payrollId →
        q.status = PayrollStatus.completed ∧ q.tx_hash = some req.txHash ∧
        q.block_number = some v.blockNumber) := by
  have hempty : batch.isEmpty = false := by
    cases hb : batch with
    | nil => exact absurd hb h2
    | cons x xs => rfl
  refine ⟨?_, ?_, ?_⟩
  · intro payload hscan
    unfold executePayroll
    rw [h0, h1]
    simp only [Bool.not_true, Bool.false_eq_true, if_false, hempty, h3, ← hbatch, ← hexp, hscan]
  · intro received hscan hne
    have hlen : (received.length == expected.length) = false := by
      exact beq_eq_false_iff_ne.mpr hne
    constructor
    · unfold executePayroll
      rw [h0, h1]
      simp only [Bool.not_true, Bool.false_eq_true, if_false, hempty, h3, ← hbatch, ← hexp,
        hscan, hlen, Bool.not_false, if_true]
    · intro addr
      simp [List.mem_filter]
  · intro received hscan hlen q hq hqid
    have hlenb : (received.length == expected.length) = true := beq_iff_eq.mpr hlen
    have hout : (executePayroll env req payrolls).payrolls =
        batch.foldl (fun acc payroll => updatePayroll acc payroll.payroll_id fun r =>
          { r with tx_hash := some req.txHash,
                   block_number := some v.blockNumber,
                   status := PayrollStatus.completed }) payrolls := by
      unfold executePayroll
      rw [h0, h1]
      simp only [Bool.not_true, Bool.false_eq_true, if_false, hempty, h3, ← hbatch, ← hexp,
        hscan, hlenb, Bool.not_true, Bool.false_eq_true, if_false]
    rw [hout] at hq
    have hall : ∀ b ∈ batch, b.payroll_id = req.payrollId := by
      intro b hb
      rw [hbatch] at hb
      have := List.of_mem_filter hb
      simpa using this
    rcases foldl_updatePayroll_good _ req.payrollId batch payrolls h2 hall q hq
      (beq_iff_eq.mpr hqid) with ⟨r, rfl⟩
    exact ⟨rfl, rfl, rfl⟩

/-- Witness for C3, exercising the missing-recipient conjunct: a batch
expecting recipients a (10) and b (20) against a transaction that only pays
a leaves both rows untouched and reports b missing. -/
theorem executePayroll_all_or_nothing_witness :
    executePayroll
      ⟨Except.ok ⟨[⟨"0xemp", "0xa", "10"⟩], 99⟩, fun s => if s = "10" then some 10 else none⟩
      ⟨"batch1", "0xhash", none⟩
      [Payroll.mk 1 "batch1" "0xemp" "0xa" "10" none none PayrollStatus.pending,
       Payroll.mk 2 "batch1" "0xemp" "0xb" "20" none none PayrollStatus.pending] =
      ⟨400, PayrollResp.notAllPaid ["0xb"],
        [Payroll.mk 1 "batch1" "0xemp" "0xa" "10" none none PayrollStatus.pending,
         Payroll.mk 2 "batch1" "0xemp" "0xb" "20" none none PayrollStatus.pending]⟩ := by
  have h := (executePayroll_all_or_nothing
    ⟨Except.ok ⟨[⟨"0xemp", "0xa", "10"⟩], 99⟩, fun s => if s = "10" then some 10 else none⟩
    ⟨"batch1", "0xhash", none⟩
    [Payroll.mk 1 "batch1" "0xemp" "0xa" "10" none none PayrollStatus.pending,
     Payroll.mk 2 "batch1" "0xemp" "0xb" "20" none none PayrollStatus.pending]
    ⟨[⟨"0xemp", "0xa", "10"⟩], 99⟩ _ _ rfl rfl (by decide) (by decide) (by decide) rfl).2.1
    ["0xa"] (by
      simp [scanTransfers, buildExpected, mapSet, getPayrollsByPayrollId, jsToLower, setAdd,
        jsGt, jsAbs, jsSub]
      decide)
    (by decide)
  have hmiss : ((buildExpected (getPayrollsByPayrollId
      [Payroll.mk 1 "batch1" "0xemp" "0xa" "10" none none PayrollStatus.pending,
       Payroll.mk 2 "batch1" "0xemp" "0xb" "20" none none PayrollStatus.pending]
      "batch1")).map Prod.fst).filter (fun addr => !(["0xa"].contains addr)) = ["0xb"] := by
    decide
  rw [hmiss] at h
  exact h.1

/- ===== Claims C2, C4, C5: requestCashout ===== -/

theorem countTxHash_updateCashout (l : List Cashout) (id : Nat) (f : Cashout → Cashout)
    (h : String) (hf : ∀ c, (f c).tx_hash_onchain = c.tx_hash_onchain) :
    countTxHash (updateCashout l id f) h = countTxHash l h := by
  unfold countTxHash updateCashout
  rw [List.countP_map]
  apply List.countP_congr
  intro c _
  by_cases hc : (c.id == id) = true
  · simp [Function.comp, hc, hf]
  · simp [Function.comp, hc]

theorem countTxHash_createCashout (l : List Cashout) (row : Cashout) (h : String) :
    countTxHash (createCashout l row) h =
      countTxHash l h + (if (row.tx_hash_onchain == h) = true then 1 else 0) := by
  unfold countTxHash createCashout
  rw [List.countP_append]
  simp [List.countP_cons]

theorem countTxHash_eq_zero_of_find_none (l : List Cashout) (tx : String)
    (hnone : getCashoutByTxHash l tx = none) : countTxHash l tx = 0 := by
  unfold getCashoutByTxHash at hnone
  rw [List.find?_eq_none] at hnone
  unfold countTxHash
  rw [List.countP_eq_zero]
  intro c hc
  simpa using hnone c hc

theorem countTxHash_createAndPayout (env : CashoutEnv) (req : CashoutRequest)
    (ea : String) (st : List Cashout) (h : String) :
    countTxHash (createAndPayout env req ea st).cashouts h =
      countTxHash st h + (if (req.txHash == h) = true then 1 else 0) := by
  unfold createAndPayout
  dsimp only
  split
  · split
    · rw [countTxHash_updateCashout _ _ _ _ (by intro c; rfl)]
      rw [countTxHash_createCashout]
    · split
      · rw [countTxHash_updateCashout _ _ _ _ (by intro c; rfl)]
        rw [countTxHash_createCashout]
      · rw [countTxHash_updateCashout _ _ _ _ (by intro c; rfl)]
        rw [countTxHash_createCashout]
  · split
    · rw [countTxHash_updateCashout _ _ _ _ (by intro c; rfl)]
      rw [countTxHash_createCashout]
    · rw [countTxHash_updateCashout _ _ _ _ (by intro c; rfl)]
      rw [countTxHash_createCashout]

theorem requestCashout_preserves_unique (env : CashoutEnv) (req : CashoutRequest)
    (st : List Cashout) (hash : String) (hinv : countTxHash st hash ≤ 1) :
    countTxHash (requestCashout env req st).cashouts hash ≤ 1 := by
  delta requestCashout
  dsimp only
  by_cases c1 : (!jsTruthyS (jsOrS req.employeeAddress req.address) ||
      !env.isAddr (jsOrS req.employeeAddress req.address)) = true
  · rw [if_pos c1]
    simpa using hinv
  rw [if_neg c1]
  by_cases c2 : (!jsTruthyS req.amount || jsLe0 (env.parseNum req.amount)) = true
  · rw [if_pos c2]
    simpa using hinv
  rw [if_neg c2]
  by_cases c3 : (!jsTruthyS req.currency ||
      !(["usd", "eur"].contains (jsToLower req.currency))) = true
  · rw [if_pos c3]
    simpa using hinv
  rw [if_neg c3]
  by_cases c4 : (!jsTruthyS req.bankAccountId) = true
  · rw [if_pos c4]
    simpa using hinv
  rw [if_neg c4]
  by_cases c5 : (!jsTruthyS req.signature || !jsTruthyS req.message) = true
  · rw [if_pos c5]
    simpa using hinv
  rw [if_neg c5]
  by_cases c6 : (!jsTruthyS req.txHash) = true
  · rw [if_pos c6]
    simpa using hinv
  rw [if_neg c6]
  by_cases c7 : (!verifySignature env.recover req.message req.signature
      (jsOrS req.employeeAddress req.address)) = true
  · rw [if_pos c7]
    simpa using hinv
  rw [if_neg c7]
  by_cases c8 : (!validateCashoutMessage req.message (jsOrS req.employeeAddress req.address)
      req.amount) = true
  · rw [if_pos c8]
    simpa using hinv
  rw [if_neg c8]
  cases henv : env.employeeLookup with
  | error m => simpa using hinv
  | ok u =>
  cases hoff : env.offrampAddress with
  | error m => simpa using hinv
  | ok offA =>
  cases hver : env.verifyTx req.txHash with
  | error m =>
      dsimp only
      by_cases c9 : (includesS m "403" || includesS m "Forbidden") = true
      · rw [if_pos c9]
        simpa using hinv
      · rw [if_neg c9]
        simpa using hinv
  | ok info =>
  dsimp only
  by_cases c10 : (!(jsToLower info.fromAddr ==
      jsToLower (jsOrS req.employeeAddress req.address))) = true
  · rw [if_pos c10]
    simpa using hinv
  rw [if_neg c10]
  by_cases c11 : (!(jsToLower info.toAddr == jsToLower offA)) = true
  · rw [if_pos c11]
    simpa using hinv
  rw [if_neg c11]
  by_cases c12 : jsGt (jsAbs (jsSub (env.parseNum info.amount) (env.parseNum req.amount)))
      (1 / 100) = true
  · rw [if_pos c12]
    simpa using hinv
  rw [if_neg c12]
  cases hdup : getCashoutByTxHash st req.txHash with
  | some existing => simpa using hinv
  | none =>
      dsimp only
      rw [countTxHash_createAndPayout]
      by_cases hh : (req.txHash == hash) = true
      · have hzero : countTxHash st hash = 0 := by
          have h0 := countTxHash_eq_zero_of_find_none st req.txHash hdup
          rwa [eq_of_beq hh] at h0
        rw [hzero, hh]
        simp
      · simp only [hh, if_false]
        simpa using hinv

theorem createAndPayout_body_ne (env : CashoutEnv) (req : CashoutRequest) (ea : String)
    (st : List Cashout) (a b : Option ℚ) :
    (createAndPayout env req ea st).body ≠ CashoutResp.amountMismatchResp a b := by
  delta createAndPayout
  dsimp only
  repeat' split
  all_goals simp

/-- Claim C2: a second `requestCashout` for a transaction hash that already
has a Cashout row passes all checks, performs the chain verification, and
then returns 200 with the existing row (id, status, payout reference, fiat
amount, currency) — the table is unchanged and `createPayout` is never
called.  Moreover (second conjunct, fully general) `requestCashout`
preserves the invariant that at most one Cashout row exists per inbound
transaction hash. -/
theorem requestCashout_duplicate_idempotent (env : CashoutEnv) (req : CashoutRequest)
    (cashouts : List Cashout) (ea offA : String) (info : TransferInfo) (existing : Cashout)
    (hea : ea = jsOrS req.employeeAddress req.address)
    (h1 : jsTruthyS ea = true) (h2 : env.isAddr ea = true)
    (h3 : jsTruthyS req.amount = true) (h4 : jsLe0 (env.parseNum req.amount) = false)
    (h5 : jsTruthyS req.currency = true)
    (h6 : ["usd", "eur"].contains (jsToLower req.currency) = true)
    (h7 : jsTruthyS req.bankAccountId = true)
    (h8 : jsTruthyS req.signature = true) (h9 : jsTruthyS req.message = true)
    (h10 : jsTruthyS req.txHash = true)
    (h11 : verifySignature env.recover req.message req.signature ea = true)
    (h12 : validateCashoutMessage req.message ea req.amount = true)
    (h13 : env.employeeLookup = Except.ok ())
    (h14 : env.offrampAddress = Except.ok offA)
    (h15 : env.verifyTx req.txHash = Except.ok info)
    (h16 : jsToLower info.fromAddr = jsToLower ea)
    (h17 : jsToLower info.toAddr = jsToLower offA)
    (h18 : jsGt (jsAbs (jsSub (env.parseNum info.amount) (env.parseNum req.amount)))
      (1 / 100) = false)
    (h19 : getCashoutByTxHash cashouts req.txHash = some existing) :
    requestCashout env req cashouts =
      ⟨200, CashoutResp.existingCashout existing.id existing.status existing.payout_id_stripe
        existing.fiat_amount existing.fiat_currency, cashouts, 1, 0⟩ ∧
    (∀ (env2 : CashoutEnv) (req2 : CashoutRequest) (st2 : List Cashout) (hash : String),
      countTxHash st2 hash ≤ 1 →
      countTxHash (requestCashout env2 req2 st2).cashouts hash ≤ 1) := by
  refine ⟨?_, fun env2 req2 st2 hash hinv =>
    requestCashout_preserves_unique env2 req2 st2 hash hinv⟩
  have g1 : (!jsTruthyS ea || !env.isAddr ea) = false := by
    rw [h1, h2]
    rfl
  have g2 : (!jsTruthyS req.amount || jsLe0 (env.parseNum req.amount)) = false := by
    rw [h3, h4]
    rfl
  have g3 : (!jsTruthyS req.currency || !(["usd", "eur"].contains (jsToLower req.currency)))
      = false := by
    rw [h5, h6]
    rfl
  have g5 : (!jsTruthyS req.signature || !jsTruthyS req.message) = false := by
    rw [h8, h9]
    rfl
  have g7 : (!verifySignature env.recover req.message req.signature ea) = false := by
    rw [h11]
    rfl
  have g8 : (!validateCashoutMessage req.message ea req.amount) = false := by
    rw [h12]
    rfl
  have g9 : (!(jsToLower info.fromAddr == jsToLower ea)) = false := by
    rw [h16]
    simp
  have g10 : (!(jsToLower info.toAddr == jsToLower offA)) = false := by
    rw [h17]
    simp
  unfold requestCashout
  rw [← hea]
  simp only [g1, g2, g3, h7, g5, h10, g7, g8, Bool.not_true, Bool.false_eq_true, if_false,
    Bool.not_false, if_true, h13, h14, h15, g9, g10, h18, h19]

/-- Witness for C2: a duplicate submission of hash 0xh1 returns the existing
row untouched. -/
theorem requestCashout_duplicate_idempotent_witness :
    requestCashout
      ⟨fun _ => true, fun _ _ => some "0xab", fun s => if s = "5" then some 5 else none,
        Except.ok (), Except.ok "0xOFF", fun _ => Except.ok ⟨"0xAB", "0xoff", "5"⟩,
        Except.ok 1, Except.ok (), Except.ok "po_1", 2⟩
      ⟨"5", "usd", "ba_1", none, "0xsig", createCashoutMessage "0xAb" "5" "now", "0xh1",
        "0xAb", ""⟩
      [Cashout.mk 1 "0xab" "5" "usd" (some 5) (some 1) "0xh1" (some "po_0") (some "ba_1")
        CashoutStatus.pending_payout none] =
      ⟨200, CashoutResp.existingCashout 1 CashoutStatus.pending_payout (some "po_0")
        (some 5) "usd",
        [Cashout.mk 1 "0xab" "5" "usd" (some 5) (some 1) "0xh1" (some "po_0") (some "ba_1")
          CashoutStatus.pending_payout none], 1, 0⟩ :=
  (requestCashout_duplicate_idempotent
    ⟨fun _ => true, fun _ _ => some "0xab", fun s => if s = "5" then some 5 else none,
      Except.ok (), Except.ok "0xOFF", fun _ => Except.ok ⟨"0xAB", "0xoff", "5"⟩,
      Except.ok 1, Except.ok (), Except.ok "po_1", 2⟩
    ⟨"5", "usd", "ba_1", none, "0xsig", createCashoutMessage "0xAb" "5" "now", "0xh1",
      "0xAb", ""⟩
    [Cashout.mk 1 "0xab" "5" "usd" (some 5) (some 1) "0xh1" (some "po_0") (some "ba_1")
      CashoutStatus.pending_payout none]
    "0xAb" "0xOFF" ⟨"0xAB", "0xoff", "5"⟩
    (Cashout.mk 1 "0xab" "5" "usd" (some 5) (some 1) "0xh1" (some "po_0") (some "ba_1")
      CashoutStatus.pending_payout none)
    rfl (by decide) rfl (by decide)
    (by simp [jsLe0])
    (by decide) (by decide) (by decide) (by decide) (by decide) (by decide)
    (by decide) (by decide) rfl rfl rfl (by decide) (by decide)
    (by norm_num [jsGt, jsSub, jsAbs])
    (by decide)).1

/-- Claim C5: when the recovered signer differs from the claimed source
wallet (case-insensitively), `requestCashout` fails 401 InvalidSignature
before any chain lookup: the chain-verification counter is 0 and the
cashouts table is unchanged. -/
theorem requestCashout_signature_before_chain (env : CashoutEnv) (req : CashoutRequest)
    (cashouts : List Cashout) (ea recovered : String)
    (hea : ea = jsOrS req.employeeAddress req.address)
    (h1 : jsTruthyS ea = true) (h2 : env.isAddr ea = true)
    (h3 : jsTruthyS req.amount = true) (h4 : jsLe0 (env.parseNum req.amount) = false)
    (h5 : jsTruthyS req.currency = true)
    (h6 : ["usd", "eur"].contains (jsToLower req.currency) = true)
    (h7 : jsTruthyS req.bankAccountId = true)
    (h8 : jsTruthyS req.signature = true) (h9 : jsTruthyS req.message = true)
    (h10 : jsTruthyS req.txHash = true)
    (hrec : env.recover req.message req.signature = some recovered)
    (hne : jsToLower recovered ≠ jsToLower ea) :
    requestCashout env req cashouts = ⟨401, CashoutResp.invalidSignatureResp, cashouts, 0, 0⟩ := by
  have g1 : (!jsTruthyS ea || !env.isAddr ea) = false := by
    rw [h1, h2]
    rfl
  have g2 : (!jsTruthyS req.amount || jsLe0 (env.parseNum req.amount)) = false := by
    rw [h3, h4]
    rfl
  have g3 : (!jsTruthyS req.currency || !(["usd", "eur"].contains (jsToLower req.currency)))
      = false := by
    rw [h5, h6]
    rfl
  have g5 : (!jsTruthyS req.signature || !jsTruthyS req.message) = false := by
    rw [h8, h9]
    rfl
  have gsig : verifySignature env.recover req.message req.signature ea = false := by
    unfold verifySignature
    rw [hrec]
    simpa using hne
  unfold requestCashout
  rw [← hea]
  simp only [g1, g2, g3, h7, g5, h10, gsig, Bool.not_true, Bool.not_false, Bool.false_eq_true,
    if_false, if_true]

/-- Witness for C5: the recovered signer 0xEVIL differs from the claimed
wallet, so the call fails 401 with zero chain lookups. -/
theorem requestCashout_signature_before_chain_witness :
    requestCashout
      ⟨fun _ => true, fun _ _ => some "0xEVIL", fun s => if s = "5" then some 5 else none,
        Except.ok (), Except.ok "0xOFF", fun _ => Except.ok ⟨"0xAB", "0xoff", "5"⟩,
        Except.ok 1, Except.ok (), Except.ok "po_1", 2⟩
      ⟨"5", "usd", "ba_1", none, "0xsig", createCashoutMessage "0xAb" "5" "now", "0xh1",
        "0xAb", ""⟩ [] =
      ⟨401, CashoutResp.invalidSignatureResp, [], 0, 0⟩ :=
  requestCashout_signature_before_chain
    ⟨fun _ => true, fun _ _ => some "0xEVIL", fun s => if s = "5" then some 5 else none,
      Except.ok (), Except.ok "0xOFF", fun _ => Except.ok ⟨"0xAB", "0xoff", "5"⟩,
      Except.ok 1, Except.ok (), Except.ok "po_1", 2⟩
    ⟨"5", "usd", "ba_1", none, "0xsig", createCashoutMessage "0xAb" "5" "now", "0xh1",
      "0xAb", ""⟩ [] "0xAb" "0xEVIL"
    rfl (by decide) rfl (by decide)
    (by simp [jsLe0])
    (by decide) (by decide) (by decide) (by decide) (by decide) (by decide)
    rfl (by decide)

/-- Claim C4: the amount comparison of `requestCashout` uses the absolute
tolerance 0.01: with the preceding checks passing and both amounts parsed,
the call fails 400 with a payload carrying both the requested and the
observed amount exactly when the difference exceeds 1/100, and never
produces an amount-mismatch response otherwise.  The payroll reconciliation
scan (third conjunct) applies the same 0.01 tolerance and its payload
carries the expected and received amount strings. -/
theorem amount_tolerance_boundary (env : CashoutEnv) (req : CashoutRequest)
    (cashouts : List Cashout) (ea offA : String) (info : TransferInfo) (t r : ℚ)
    (hea : ea = jsOrS req.employeeAddress req.address)
    (h1 : jsTruthyS ea = true) (h2 : env.isAddr ea = true)
    (h3 : jsTruthyS req.amount = true) (h4 : jsLe0 (env.parseNum req.amount) = false)
    (h5 : jsTruthyS req.currency = true)
    (h6 : ["usd", "eur"].contains (jsToLower req.currency) = true)
    (h7 : jsTruthyS req.bankAccountId = true)
    (h8 : jsTruthyS req.signature = true) (h9 : jsTruthyS req.message = true)
    (h10 : jsTruthyS req.txHash = true)
    (h11 : verifySignature env.recover req.message req.signature ea = true)
    (h12 : validateCashoutMessage req.message ea req.amount = true)
    (h13 : env.employeeLookup = Except.ok ())
    (h14 : env.offrampAddress = Except.ok offA)
    (h15 : env.verifyTx req.txHash = Except.ok info)
    (h16 : jsToLower info.fromAddr = jsToLower ea)
    (h17 : jsToLower info.toAddr = jsToLower offA)
    (hpT : env.parseNum info.amount = some t)
    (hpR : env.parseNum req.amount = some r) :
    ((1 / 100 : ℚ) < |t - r| →
      requestCashout env req cashouts =
        ⟨400, CashoutResp.amountMismatchResp (some r) (some t), cashouts, 1, 0⟩) ∧
    (|t - r| ≤ (1 / 100 : ℚ) →
      ∀ a b, (requestCashout env req cashouts).body ≠ CashoutResp.amountMismatchResp a b) ∧
    (∀ (parse : String → Option ℚ) (expected : List (String × String)) (tr : PTransfer)
        (received : List String) (s : String) (tA eA : ℚ),
      expected.lookup (jsToLower tr.toAddr) = some s → jsTruthyS s = true →
      parse tr.amount = some tA → parse s = some eA →
      (scanTransfers parse expected [tr] received = Except.error (tr.toAddr, s, tr.amount) ↔
        (1 / 100 : ℚ) < |tA - eA|)) := by
  have g1 : (!jsTruthyS ea || !env.isAddr ea) = false := by
    rw [h1, h2]
    rfl
  have g2 : (!jsTruthyS req.amount || jsLe0 (env.parseNum req.amount)) = false := by
    rw [h3, h4]
    rfl
  have g3 : (!jsTruthyS req.currency || !(["usd", "eur"].contains (jsToLower req.currency)))
      = false := by
    rw [h5, h6]
    rfl
  have g5 : (!jsTruthyS req.signature || !jsTruthyS req.message) = false := by
    rw [h8, h9]
    rfl
  have g7 : (!verifySignature env.recover req.message req.signature ea) = false := by
    rw [h11]
    rfl
  have g8 : (!validateCashoutMessage req.message ea req.amount) = false := by
    rw [h12]
    rfl
  have g9 : (!(jsToLower info.fromAddr == jsToLower ea)) = false := by
    rw [h16]
    simp
  have g10 : (!(jsToLower info.toAddr == jsToLower offA)) = false := by
    rw [h17]
    simp
  refine ⟨?_, ?_, ?_⟩
  · intro hgt
    have gT : jsGt (jsAbs (jsSub (env.parseNum info.amount) (env.parseNum req.amount)))
        (1 / 100) = true := by
      rw [hpT, hpR]
      simpa [jsGt, jsSub, jsAbs] using hgt
    have g2r : (!jsTruthyS req.amount || jsLe0 (some r)) = false := by
      rw [← hpR]
      exact g2
    have gTr : jsGt (jsAbs (jsSub (some t) (some r))) (1 / 100) = true := by
      rw [← hpT, ← hpR]
      exact gT
    unfold requestCashout
    rw [← hea]
    simp only [g1, g2, g2r, g3, h7, g5, h10, g7, g8, Bool.not_true, Bool.false_eq_true, if_false,
      Bool.not_false, if_true, h13, h14, h15, g9, g10, gT, gTr, hpT, hpR]
  · intro hle a b
    have gT : jsGt (jsAbs (jsSub (env.parseNum info.amount) (env.parseNum req.amount)))
        (1 / 100) = false := by
      rw [hpT, hpR]
      simp only [jsGt, jsSub, jsAbs, decide_eq_false_iff_not]
      exact not_lt.mpr hle
    unfold requestCashout
    rw [← hea]
    simp only [g1, g2, g3, h7, g5, h10, g7, g8, Bool.not_true, Bool.false_eq_true, if_false,
      Bool.not_false, if_true, h13, h14, h15, g9, g10, gT]
    cases hdup : getCashoutByTxHash cashouts req.txHash with
    | some e => simp
    | none =>
        simp only []
        exact createAndPayout_body_ne env req ea cashouts a b
  · intro parse expected tr received s tA eA hlk hts hptA hpeA
    simp only [scanTransfers]
    rw [hlk]
    simp only [hts, if_true, hptA, hpeA]
    by_cases hgt : (1 / 100 : ℚ) < |tA - eA|
    · have hT : jsGt (jsAbs (jsSub (some tA) (some eA))) (1 / 100) = true := by
        simpa [jsGt, jsSub, jsAbs] using hgt
      rw [if_pos hT]
      constructor
      · intro _
        exact hgt
      · intro _
        rfl
    · have hT : jsGt (jsAbs (jsSub (some tA) (some eA))) (1 / 100) = false := by
        simp only [jsGt, jsSub, jsAbs, decide_eq_false_iff_not]
        simpa using hgt
      rw [if_neg (by rw [hT]; simp)]
      constructor
      · intro hcontra
        exact absurd hcontra (by simp [scanTransfers])
      · intro hc
        exact absurd hc hgt

/-- Witness for C4 at the boundary values of the spec: an observed transfer
of 100.02 against an expected 100.00 fails with the mismatch payload
carrying both amounts (difference 0.02 > 0.01), while 100.004 against
100.00 passes (difference 0.004 < 0.01), both for the cashout request and
for the payroll reconciliation scan. -/
theorem amount_tolerance_boundary_witness :
    requestCashout
      ⟨fun _ => true, fun _ _ => some "0xab",
        fun s => if s = "100.00" then some 100
          else if s = "100.02" then some (10002 / 100)
          else if s = "100.004" then some (100004 / 1000) else none,
        Except.ok (), Except.ok "0xOFF", fun _ => Except.ok ⟨"0xAB", "0xoff", "100.02"⟩,
        Except.ok 1, Except.ok (), Except.ok "po_1", 2⟩
      ⟨"100.00", "usd", "ba_1", none, "0xsig", createCashoutMessage "0xAb" "100.00" "now",
        "0xh1", "0xAb", ""⟩ [] =
      ⟨400, CashoutResp.amountMismatchResp (some 100) (some (10002 / 100)), [], 1, 0⟩ ∧
    (∀ a b, (requestCashout
      ⟨fun _ => true, fun _ _ => some "0xab",
        fun s => if s = "100.00" then some 100
          else if s = "100.02" then some (10002 / 100)
          else if s = "100.004" then some (100004 / 1000) else none,
        Except.ok (), Except.ok "0xOFF", fun _ => Except.ok ⟨"0xAB", "0xoff", "100.004"⟩,
        Except.ok 1, Except.ok (), Except.ok "po_1", 2⟩
      ⟨"100.00", "usd", "ba_1", none, "0xsig", createCashoutMessage "0xAb" "100.00" "now",
        "0xh1", "0xAb", ""⟩ []).body ≠ CashoutResp.amountMismatchResp a b) ∧
    scanTransfers
      (fun s => if s = "100.00" then some 100
        else if s = "100.02" then some (10002 / 100)
        else if s = "100.004" then some (100004 / 1000) else none)
      [("0xa", "100.00")] [⟨"0xe", "0xA", "100.02"⟩] [] =
      Except.error ("0xA", "100.00", "100.02") ∧
    scanTransfers
      (fun s => if s = "100.00" then some 100
        else if s = "100.02" then some (10002 / 100)
        else if s = "100.004" then some (100004 / 1000) else none)
      [("0xa", "100.00")] [⟨"0xe", "0xA", "100.004"⟩] [] ≠
      Except.error ("0xA", "100.00", "100.004") := by
  have hA := amount_tolerance_boundary
    ⟨fun _ => true, fun _ _ => some "0xab",
      fun s => if s = "100.00" then some 100
        else if s = "100.02" then some (10002 / 100)
        else if s = "100.004" then some (100004 / 1000) else none,
      Except.ok (), Except.ok "0xOFF", fun _ => Except.ok ⟨"0xAB", "0xoff", "100.02"⟩,
      Except.ok 1, Except.ok (), Except.ok "po_1", 2⟩
    ⟨"100.00", "usd", "ba_1", none, "0xsig", createCashoutMessage "0xAb" "100.00" "now",
      "0xh1", "0xAb", ""⟩ [] "0xAb" "0xOFF" ⟨"0xAB", "0xoff", "100.02"⟩
    (10002 / 100) 100
    rfl (by decide) rfl (by decide) (by simp [jsLe0]) (by decide) (by decide) (by decide)
    (by decide) (by decide) (by decide) (by decide) (by decide) rfl rfl rfl
    (by decide) (by decide) (by simp) (by simp)
  have hB := amount_tolerance_boundary
    ⟨fun _ => true, fun _ _ => some "0xab",
      fun s => if s = "100.00" then some 100
        else if s = "100.02" then some (10002 / 100)
        else if s = "100.004" then some (100004 / 1000) else none,
      Except.ok (), Except.ok "0xOFF", fun _ => Except.ok ⟨"0xAB", "0xoff", "100.004"⟩,
      Except.ok 1, Except.ok (), Except.ok "po_1", 2⟩
    ⟨"100.00", "usd", "ba_1", none, "0xsig", createCashoutMessage "0xAb" "100.00" "now",
      "0xh1", "0xAb", ""⟩ [] "0xAb" "0xOFF" ⟨"0xAB", "0xoff", "100.004"⟩
    (100004 / 1000) 100
    rfl (by decide) rfl (by decide) (by simp [jsLe0]) (by decide) (by decide) (by decide)
    (by decide) (by decide) (by decide) (by decide) (by decide) rfl rfl rfl
    (by decide) (by decide) (by simp) (by simp)
  have habs1 : |(10002 / 100 : ℚ) - 100| = 1 / 50 := by
    rw [abs_of_nonneg (by norm_num : (0 : ℚ) ≤ 10002 / 100 - 100)]
    norm_num
  have habs2 : |(100004 / 1000 : ℚ) - 100| = 1 / 250 := by
    rw [abs_of_nonneg (by norm_num : (0 : ℚ) ≤ 100004 / 1000 - 100)]
    norm_num
  refine ⟨?_, ?_, ?_, ?_⟩
  · exact hA.1 (by rw [habs1]; norm_num)
  · exact hB.2.1 (by rw [habs2]; norm_num)
  · exact (hA.2.2 _ [("0xa", "100.00")] ⟨"0xe", "0xA", "100.02"⟩ [] "100.00"
      (10002 / 100) 100 (by decide) (by decide) (by simp) (by simp)).mpr (by rw [habs1]; norm_num)
  · intro hcontra
    have hlt := (hA.2.2 _ [("0xa", "100.00")] ⟨"0xe", "0xA", "100.004"⟩ [] "100.00"
      (100004 / 1000) 100 (by decide) (by decide) (by simp) (by simp)).mp hcontra
    rw [habs2] at hlt
    norm_num at hlt

end StablePay
